import Mathlib

/-!
# Verification of the workspace-analysis core (mokospp)

Shallow embedding of the AI response-normalization and analysis pipeline:

* `ErgonomicAnalysisService` (src/unnamed/part_008, lines 1-455): category /
  status normalization, insight generation, default filling, prioritization.
* `AIResponseParserService` (src/unnamed/part_007): JSON-first response
  parsing with heuristic fallback, and the free-text cleaner.
* `ProductRecommendationService` (src/unnamed/part_009): budget multiplier,
  catalog templates, price-range computation, fallback list.
* `AIPromptService.createPromptContext` (src/services/ai-prompts.ts).
* `ColorExtractionService` (src/services/color-extraction.ts): pixel
  filtering, greedy clustering, mood classification.
* `AIAnalysisService.analyzeWorkspace` retry loop (src/unnamed/part_008,
  lines 482-526) and `AIImageProcessingService.validateImageForAI`
  (src/unnamed/part_006).

Conventions: TypeScript `number` is modelled as `ℚ` (or `ℤ`/`ℕ` where the
source only ever holds integers); the float functions `Math.pow(·, 2.4)` and
`Math.sqrt` used by the color clusterer are modelled exactly over `ℝ`.
`Math.round` is `jsRound` (round half towards +∞), matching JS semantics for
the non-negative values that occur here.  `Math.random()`-dependent values
(recommendation text pick, product rating) are modelled as explicit
parameters, and theorems quantify over them.  Timestamp-derived `id` fields
(`Date.now()`) are environmental and omitted from the embedded records; no
claim mentions them.
-/

namespace Mokospp

/-- JS `Math.round` on the rationals: round half away from zero is wrong,
JS rounds half towards +∞ (`Math.round(0.5) = 1`, `Math.round(-0.5) = 0`);
that is `⌊q + 1/2⌋`. -/
def jsRound (q : ℚ) : ℤ := ⌊q + 1/2⌋

/-- JS `String.prototype.toLowerCase` for the ASCII strings this codebase
compares (equivalent to `String.toLower`, i.e. `Char.toLower` applied to
each character, but stated over the character list so that it reduces
definitionally inside the kernel). -/
def jsToLower (s : String) : String := ⟨s.data.map Char.toLower⟩

/-! ## Data model (src/types/ai-analysis.ts) -/

/-- The closed enumeration of canonical ergonomic categories
(`ErgonomicInsight.category`, src/types/ai-analysis.ts line 36). -/
inductive Category
  | deskHeight
  | chairPosture
  | lighting
  | screenPosition
  | organization
  deriving DecidableEq, Repr

/-- The closed enumeration of canonical statuses
(`ErgonomicInsight.status`, src/types/ai-analysis.ts line 37). -/
inductive Status
  | good
  | needsImprovement
  | poor
  deriving DecidableEq, Repr

/-- Numeric rank for the spec's quality ordering poor < needs-improvement <
good (claim C4's ordering; NOT the source's sort-priority order). -/
def Status.rank : Status → ℕ
  | .poor => 0
  | .needsImprovement => 1
  | .good => 2

/-- `a` is at most as good as `b` in the poor < needs-improvement < good
ordering. -/
def statusLe (a b : Status) : Bool := a.rank ≤ b.rank

/-- `ErgonomicInsight` (src/types/ai-analysis.ts lines 35-41). -/
structure ErgonomicInsight where
  category : Category
  status : Status
  title : String
  description : String
  recommendation : Option String
  deriving DecidableEq, Repr

/-- Strictness levels of `ErgonomicAnalysisConfig` (src/unnamed/part_008
line 6). -/
inductive Strictness
  | lenient
  | standard
  | strict
  deriving DecidableEq, Repr

/-- `ErgonomicAnalysisConfig` (src/unnamed/part_008 lines 3-7). -/
structure ErgonomicAnalysisConfig where
  enableDetailedMetrics : Bool
  includePostureAnalysis : Bool
  strictnessLevel : Strictness
  deriving DecidableEq, Repr

namespace ErgonomicAnalysisService

/-- Lookup table of `normalizeStatus` for the `lenient` strictness level
(src/unnamed/part_008 lines 231-239).  Note it has no entry for
`"excellent"`. -/
def lenientStatusMap (k : String) : Option Status :=
  if k = "good" then some .good
  else if k = "ok" then some .good
  else if k = "acceptable" then some .good
  else if k = "needs-improvement" then some .needsImprovement
  else if k = "fair" then some .needsImprovement
  else if k = "poor" then some .poor
  else if k = "bad" then some .poor
  else none

/-- Lookup table of `normalizeStatus` for the `standard` strictness level
(src/unnamed/part_008 lines 240-249). -/
def standardStatusMap (k : String) : Option Status :=
  if k = "good" then some .good
  else if k = "excellent" then some .good
  else if k = "ok" then some .needsImprovement
  else if k = "acceptable" then some .needsImprovement
  else if k = "needs-improvement" then some .needsImprovement
  else if k = "fair" then some .needsImprovement
  else if k = "poor" then some .poor
  else if k = "bad" then some .poor
  else none

/-- Lookup table of `normalizeStatus` for the `strict` strictness level
(src/unnamed/part_008 lines 250-259). -/
def strictStatusMap (k : String) : Option Status :=
  if k = "excellent" then some .good
  else if k = "good" then some .needsImprovement
  else if k = "ok" then some .needsImprovement
  else if k = "acceptable" then some .poor
  else if k = "needs-improvement" then some .poor
  else if k = "fair" then some .poor
  else if k = "poor" then some .poor
  else if k = "bad" then some .poor
  else none

/-- `ErgonomicAnalysisService.normalizeStatus` (src/unnamed/part_008 lines
226-263): lowercase the raw status, look it up in the strictness-specific
table, default to `needs-improvement` when absent. -/
def normalizeStatus (status : String) (strictness : Strictness) : Status :=
  let key := jsToLower status
  let looked :=
    match strictness with
    | .lenient => lenientStatusMap key
    | .standard => standardStatusMap key
    | .strict => strictStatusMap key
  looked.getD .needsImprovement

/-- Strict never beats standard, for any lookup key. -/
theorem strict_le_standard_key (k : String) :
    statusLe ((strictStatusMap k).getD .needsImprovement)
      ((standardStatusMap k).getD .needsImprovement) = true := by
  by_cases h1 : k = "good"; · subst h1; decide
  by_cases h2 : k = "excellent"; · subst h2; decide
  by_cases h3 : k = "ok"; · subst h3; decide
  by_cases h4 : k = "acceptable"; · subst h4; decide
  by_cases h5 : k = "needs-improvement"; · subst h5; decide
  by_cases h6 : k = "fair"; · subst h6; decide
  by_cases h7 : k = "poor"; · subst h7; decide
  by_cases h8 : k = "bad"; · subst h8; decide
  simp [strictStatusMap, standardStatusMap, h1, h2, h3, h4, h5, h6, h7, h8,
    statusLe, Status.rank]

/-- Standard never beats lenient, for any lookup key other than
`"excellent"` (which the lenient table is missing). -/
theorem standard_le_lenient_key (k : String) (hk : k ≠ "excellent") :
    statusLe ((standardStatusMap k).getD .needsImprovement)
      ((lenientStatusMap k).getD .needsImprovement) = true := by
  by_cases h1 : k = "good"; · subst h1; decide
  by_cases h3 : k = "ok"; · subst h3; decide
  by_cases h4 : k = "acceptable"; · subst h4; decide
  by_cases h5 : k = "needs-improvement"; · subst h5; decide
  by_cases h6 : k = "fair"; · subst h6; decide
  by_cases h7 : k = "poor"; · subst h7; decide
  by_cases h8 : k = "bad"; · subst h8; decide
  simp [strictStatusMap, standardStatusMap, lenientStatusMap,
    h1, hk, h3, h4, h5, h6, h7, h8, statusLe, Status.rank]

end ErgonomicAnalysisService

/-- C4 counterexample: for the raw status `"excellent"`, `normalizeStatus`
yields `good` under `standard` but only `needs-improvement` under `lenient`
(whose lookup table has no `excellent` entry, so the default applies), so
the result under `standard` is strictly better than under `lenient`,
refuting the claimed monotonicity. -/
theorem normalizeStatus_not_monotone_at_excellent :
    ErgonomicAnalysisService.normalizeStatus "excellent" .standard = Status.good ∧
    ErgonomicAnalysisService.normalizeStatus "excellent" .lenient = Status.needsImprovement ∧
    statusLe (ErgonomicAnalysisService.normalizeStatus "excellent" .standard)
      (ErgonomicAnalysisService.normalizeStatus "excellent" .lenient) = false := by
  decide

/-- C4 (amended): for every raw status string, the canonical status under
`strict` is never better than under `standard`; and for every raw status
string whose lowercase form is not `"excellent"`, the status under
`standard` is never better than under `lenient` (ordering poor <
needs-improvement < good). -/
theorem normalizeStatus_strictness_monotone (s : String) :
    statusLe (ErgonomicAnalysisService.normalizeStatus s .strict)
      (ErgonomicAnalysisService.normalizeStatus s .standard) = true ∧
    (jsToLower s ≠ "excellent" →
      statusLe (ErgonomicAnalysisService.normalizeStatus s .standard)
        (ErgonomicAnalysisService.normalizeStatus s .lenient) = true) := by
  refine ⟨?_, fun hk => ?_⟩
  · exact ErgonomicAnalysisService.strict_le_standard_key (jsToLower s)
  · exact ErgonomicAnalysisService.standard_le_lenient_key (jsToLower s) hk

/-- Witness for C4's amended theorem at the raw status `"acceptable"`. -/
theorem normalizeStatus_strictness_monotone_witness :
    statusLe (ErgonomicAnalysisService.normalizeStatus "acceptable" .strict)
      (ErgonomicAnalysisService.normalizeStatus "acceptable" .standard) = true ∧
    statusLe (ErgonomicAnalysisService.normalizeStatus "acceptable" .standard)
      (ErgonomicAnalysisService.normalizeStatus "acceptable" .lenient) = true := by
  exact ⟨(normalizeStatus_strictness_monotone "acceptable").1,
    (normalizeStatus_strictness_monotone "acceptable").2 (by decide)⟩

/-! ## String helpers shared by several services -/

/-- Does the pattern occur at the head of the character list? -/
def leadsWith : List Char → List Char → Bool
  | [], _ => true
  | _ :: _, [] => false
  | p :: ps, c :: cs => p == c && leadsWith ps cs

/-- Does the pattern occur anywhere in the character list? -/
def occursInCL (needle : List Char) : List Char → Bool
  | [] => needle.isEmpty
  | c :: cs => leadsWith needle (c :: cs) || occursInCL needle cs

/-- JS `String.prototype.includes(pat)`. -/
def jsIncludes (s pat : String) : Bool := occursInCL pat.data s.data

/-! ## Ergonomic insight engine (src/unnamed/part_008, lines 37-455) -/

/-- JS string fallback `a || b`: `b` when `a` is `undefined` or the empty
string. -/
def orFalsy (a : Option String) (b : String) : String :=
  match a with
  | none => b
  | some s => if s = "" then b else s

/-- One raw entry of `analysisData.ergonomic_evaluation` as read by
`processErgonomicItem` (fields `category`, `status`, `observation`,
`description`, `recommendation`). -/
structure ErgonomicEvalItem where
  category : String
  status : String
  observation : Option String
  description : Option String
  recommendation : Option String
  deriving DecidableEq, Repr

/-- The two fields of the parsed analysis object that
`ErgonomicAnalysisService.analyzeErgonomics` reads; `none` models an
absent/non-array field (the `Array.isArray` guards). -/
structure ErgonomicAnalysisData where
  ergonomic_evaluation : Option (List ErgonomicEvalItem)
  improvement_priorities : Option (List String)
  deriving DecidableEq, Repr

namespace ErgonomicAnalysisService

/-- `normalizeCategory` (src/unnamed/part_008 lines 196-221):
`categoryMap[category.toLowerCase()] || null`. -/
def normalizeCategory (category : String) : Option Category :=
  let k := jsToLower category
  if k = "desk-height" ∨ k = "desk_height" ∨ k = "deskheight" then
    some .deskHeight
  else if k = "chair-posture" ∨ k = "chair_posture" ∨ k = "chairposture" ∨
      k = "chair" ∨ k = "posture" then
    some .chairPosture
  else if k = "lighting" ∨ k = "light" ∨ k = "illumination" then
    some .lighting
  else if k = "screen-position" ∨ k = "screen_position" ∨
      k = "screenposition" ∨ k = "monitor" ∨ k = "display" then
    some .screenPosition
  else if k = "organization" ∨ k = "organisation" ∨ k = "clutter" ∨
      k = "storage" then
    some .organization
  else none

/-- `generateTitle` (src/unnamed/part_008 lines 366-399); the table covers
all 15 category × status pairs, so the `${category} Assessment` fallback is
unreachable. -/
def generateTitle (category : Category) (status : Status) : String :=
  match category, status with
  | .deskHeight, .good => "Desk Height Optimal"
  | .deskHeight, .needsImprovement => "Desk Height Adjustment Needed"
  | .deskHeight, .poor => "Desk Height Requires Attention"
  | .chairPosture, .good => "Chair & Posture Excellent"
  | .chairPosture, .needsImprovement => "Chair Setup Needs Improvement"
  | .chairPosture, .poor => "Chair & Posture Issues Detected"
  | .lighting, .good => "Lighting Conditions Good"
  | .lighting, .needsImprovement => "Lighting Could Be Enhanced"
  | .lighting, .poor => "Lighting Needs Immediate Attention"
  | .screenPosition, .good => "Screen Position Optimal"
  | .screenPosition, .needsImprovement => "Screen Position Adjustment Needed"
  | .screenPosition, .poor => "Screen Position Problematic"
  | .organization, .good => "Workspace Well Organized"
  | .organization, .needsImprovement => "Organization Opportunities"
  | .organization, .poor => "Workspace Needs Organization"

/-- The per-cell recommendation candidate lists of `generateRecommendation`
(src/unnamed/part_008 lines 289-350); only `needs-improvement` and `poor`
cells exist. -/
def recommendationPool (category : Category) (status : Status) : List String :=
  match category, status with
  | .deskHeight, .needsImprovement =>
    [ "Adjust desk height so elbows are at 90° when typing"
    , "Consider a height-adjustable desk or keyboard tray"
    , "Ensure feet are flat on floor or footrest" ]
  | .deskHeight, .poor =>
    [ "Immediately adjust desk height - current setup may cause strain"
    , "Use a standing desk converter or adjustable keyboard tray"
    , "Consider ergonomic assessment for proper measurements" ]
  | .chairPosture, .needsImprovement =>
    [ "Adjust chair height and back angle for better lumbar support"
    , "Ensure chair back supports natural spine curve"
    , "Consider ergonomic chair with adjustable features" ]
  | .chairPosture, .poor =>
    [ "Replace chair or add lumbar support immediately"
    , "Adjust chair settings: height, back angle, armrests"
    , "Take regular breaks to prevent long-term strain" ]
  | .lighting, .needsImprovement =>
    [ "Add task lighting to reduce eye strain"
    , "Position light source to minimize screen glare"
    , "Consider adjustable desk lamp with warm light" ]
  | .lighting, .poor =>
    [ "Improve lighting immediately - current setup strains eyes"
    , "Add multiple light sources for even illumination"
    , "Position screen perpendicular to windows to reduce glare" ]
  | .screenPosition, .needsImprovement =>
    [ "Adjust monitor height so top is at eye level"
    , "Position screen 50-70cm away from eyes"
    , "Tilt screen slightly backward (10-20°)" ]
  | .screenPosition, .poor =>
    [ "Reposition screen immediately to prevent neck strain"
    , "Use monitor arm or stand for proper height adjustment"
    , "Ensure screen is directly in front, not to the side" ]
  | .organization, .needsImprovement =>
    [ "Add storage solutions to reduce desktop clutter"
    , "Organize frequently used items within arm's reach"
    , "Create designated spaces for different work materials" ]
  | .organization, .poor =>
    [ "Declutter workspace immediately for better focus"
    , "Implement filing system for papers and supplies"
    , "Remove unnecessary items from work surface" ]
  | _, .good => []

/-- `generateRecommendation` (src/unnamed/part_008 lines 284-361).  The
`Math.floor(Math.random() * statusRecs.length)` index is modelled by
`pick % length` where `pick` is an arbitrary parameter the theorems
quantify over; every `categoryRecs[category]` exists, so the `good` status
is the only way to reach the `Maintain current setup` return. -/
def generateRecommendation (category : Category) (status : Status)
    (pick : ℕ) : String :=
  if status = .good then "Maintain current setup and monitor for changes"
  else
    let statusRecs := recommendationPool category status
    (statusRecs.getD (pick % statusRecs.length)
      "Consider ergonomic improvements for better comfort")

/-- `enhanceRecommendation` (src/unnamed/part_008 lines 268-279): keep the
model's recommendation when it is present and longer than 20 characters,
otherwise synthesize one. -/
def enhanceRecommendation (baseRecommendation : Option String)
    (category : Category) (status : Status) (pick : ℕ) : String :=
  match baseRecommendation with
  | some r => if r.length > 20 then r else generateRecommendation category status pick
  | none => generateRecommendation category status pick

/-- `processErgonomicItem` (src/unnamed/part_008 lines 94-123); its
`catch` is unreachable for well-typed input. -/
def processErgonomicItem (item : ErgonomicEvalItem)
    (config : ErgonomicAnalysisConfig) (pick : ℕ) : Option ErgonomicInsight :=
  match normalizeCategory item.category with
  | none => none
  | some category =>
    let status := normalizeStatus item.status config.strictnessLevel
    some
      { category := category
        status := status
        title := generateTitle category status
        description :=
          orFalsy item.observation
            (orFalsy item.description "Assessment in progress")
        recommendation :=
          some (enhanceRecommendation item.recommendation category status pick) }

/-- The ordered `categoryMappings` table of `parseImprovement`
(src/unnamed/part_008 lines 155-169); `Object.entries` preserves insertion
order. -/
def improvementCategoryMappings : List (String × Category) :=
  [ ("ergonomic", .chairPosture)
  , ("posture", .chairPosture)
  , ("chair", .chairPosture)
  , ("desk", .deskHeight)
  , ("height", .deskHeight)
  , ("light", .lighting)
  , ("illumination", .lighting)
  , ("screen", .screenPosition)
  , ("monitor", .screenPosition)
  , ("display", .screenPosition)
  , ("organization", .organization)
  , ("clutter", .organization)
  , ("storage", .organization) ]

/-- `parseImprovement` (src/unnamed/part_008 lines 147-191): keyword-match
the lowercased priority text; the first priority (index 0) becomes `poor`,
all later ones `needs-improvement`. -/
def parseImprovement (improvement : String) (priority : ℕ)
    (pick : ℕ) : Option ErgonomicInsight :=
  let lowerImprovement := jsToLower improvement
  let detected := improvementCategoryMappings.find?
    (fun kc => jsIncludes lowerImprovement kc.1)
  match detected with
  | none => none
  | some kc =>
    let status : Status := if priority = 0 then .poor else .needsImprovement
    some
      { category := kc.2
        status := status
        title := generateTitle kc.2 status
        description := improvement
        recommendation := some (generateRecommendation kc.2 status pick) }

/-- `extractInsightsFromPriorities` (src/unnamed/part_008 lines 128-142). -/
def extractInsightsFromPriorities (priorities : List String)
    (pick : ℕ) : List ErgonomicInsight :=
  priorities.enum.filterMap (fun ip => parseImprovement ip.2 ip.1 pick)

/-- The fixed `allCategories` list of `getMissingCategories`
(src/unnamed/part_008 lines 407-413). -/
def allCategories : List Category :=
  [.deskHeight, .chairPosture, .lighting, .screenPosition, .organization]

/-- `getMissingCategories` (src/unnamed/part_008 lines 404-416). -/
def getMissingCategories (coveredCategories : List Category) : List Category :=
  allCategories.filter (fun category => ¬ coveredCategories.contains category)

/-- `generateDefaultInsight` (src/unnamed/part_008 lines 421-432). -/
def generateDefaultInsight (category : Category) : ErgonomicInsight :=
  { category := category
    status := .good
    title := generateTitle category .good
    description := "No specific issues identified in this area."
    recommendation := none }

/-- Position of a status in the `priorityOrder` array of
`prioritizeInsights` (src/unnamed/part_008 line 441). -/
def statusPriorityIdx : Status → ℕ
  | .poor => 0
  | .needsImprovement => 1
  | .good => 2

/-- Position of a category in the `categoryOrder` array of
`prioritizeInsights` (src/unnamed/part_008 line 442). -/
def categoryPriorityIdx : Category → ℕ
  | .chairPosture => 0
  | .deskHeight => 1
  | .screenPosition => 2
  | .lighting => 3
  | .organization => 4

/-- Sort relation of the comparator in `prioritizeInsights`
(src/unnamed/part_008 lines 444-452): status priority first, category
priority second. -/
def insightLe (a b : ErgonomicInsight) : Prop :=
  statusPriorityIdx a.status < statusPriorityIdx b.status ∨
    (statusPriorityIdx a.status = statusPriorityIdx b.status ∧
      categoryPriorityIdx a.category ≤ categoryPriorityIdx b.category)

instance : DecidableRel insightLe := fun a b => by
  unfold insightLe; infer_instance

/-- `prioritizeInsights` (src/unnamed/part_008 lines 437-453): modern JS
`Array.sort` is stable, as is insertion sort; the theorems below only use
that the result is a permutation of the input. -/
def prioritizeInsights (insights : List ErgonomicInsight) :
    List ErgonomicInsight :=
  insights.insertionSort insightLe

/-- `ErgonomicAnalysisService.analyzeErgonomics` (src/unnamed/part_008
lines 42-89): process the model's ergonomic evaluation entries, add
insights derived from improvement priorities, fill every still-uncovered
canonical category with a default `good` insight, and sort.  The outer
`catch` is unreachable for well-typed input. -/
def analyzeErgonomics (analysisData : ErgonomicAnalysisData)
    (config : ErgonomicAnalysisConfig) (pick : ℕ) : List ErgonomicInsight :=
  let evalInsights :=
    match analysisData.ergonomic_evaluation with
    | some items => items.filterMap (fun it => processErgonomicItem it config pick)
    | none => []
  let priorityInsights :=
    match analysisData.improvement_priorities with
    | some ps => extractInsightsFromPriorities ps pick
    | none => []
  let insights := evalInsights ++ priorityInsights
  let coveredCategories := insights.map (fun i => i.category)
  let missingCategories := getMissingCategories coveredCategories
  let withDefaults :=
    insights ++ missingCategories.map generateDefaultInsight
  prioritizeInsights withDefaults

end ErgonomicAnalysisService

/-- The strictness configuration the orchestrator uses
(src/unnamed/part_008 lines 44-48 and 576-580). -/
def standardConfig : ErgonomicAnalysisConfig :=
  { enableDetailedMetrics := true
    includePostureAnalysis := true
    strictnessLevel := .standard }

/-- C1 counterexample input: two ergonomic-evaluation entries whose raw
categories (`"chair"`, `"posture"`) both normalize to `chair-posture`. -/
def c1DuplicateData : ErgonomicAnalysisData :=
  { ergonomic_evaluation := some
      [ { category := "chair"
          status := "poor"
          observation := some "Chair lacks lumbar support."
          description := none
          recommendation := none }
      , { category := "posture"
          status := "bad"
          observation := some "Posture looks slouched."
          description := none
          recommendation := none } ]
    improvement_priorities := some [] }

/-- C1 counterexample: `analyzeErgonomics` does not merge insights that
fall in the same canonical category, so this input yields TWO
`chair-posture` insights plus the four defaults — 6 insights in total, not
exactly one per category (5). -/
theorem analyzeErgonomics_duplicate_categories :
    (ErgonomicAnalysisService.analyzeErgonomics c1DuplicateData
      standardConfig 0).length = 6 ∧
    ((ErgonomicAnalysisService.analyzeErgonomics c1DuplicateData
      standardConfig 0).map (fun i => i.category)).count .chairPosture = 2 := by
  decide

/-- C1 (amended): for every input, configuration and random pick,
`analyzeErgonomics` returns at least one insight per canonical category —
hence at least 5 insights, with category and status drawn from the closed
enumerations by construction — but exactly 5 only when the input-derived
insights cover pairwise-distinct categories. -/
theorem analyzeErgonomics_covers_all_categories
    (data : ErgonomicAnalysisData) (config : ErgonomicAnalysisConfig)
    (pick : ℕ) :
    (∀ cat : Category,
      cat ∈ (ErgonomicAnalysisService.analyzeErgonomics data config pick).map
        (fun i => i.category)) ∧
    5 ≤ (ErgonomicAnalysisService.analyzeErgonomics data config pick).length := by
  unfold ErgonomicAnalysisService.analyzeErgonomics
  set L := (match data.ergonomic_evaluation with
    | some items => items.filterMap
        (fun it => ErgonomicAnalysisService.processErgonomicItem it config pick)
    | none => []) ++
    (match data.improvement_priorities with
    | some ps => ErgonomicAnalysisService.extractInsightsFromPriorities ps pick
    | none => []) with hL
  set wd := L ++ (ErgonomicAnalysisService.getMissingCategories
    (L.map (fun i => i.category))).map
      ErgonomicAnalysisService.generateDefaultInsight with hwd
  have hperm : (ErgonomicAnalysisService.prioritizeInsights wd).Perm wd :=
    List.perm_insertionSort _ _
  have hmapwd : wd.map (fun i => i.category) =
      L.map (fun i => i.category) ++
      ErgonomicAnalysisService.getMissingCategories
        (L.map (fun i => i.category)) := by
    rw [hwd, List.map_append, List.map_map]
    congr 1
    exact List.map_id _
  have hcov : ∀ cat : Category, cat ∈ wd.map (fun i => i.category) := by
    intro cat
    rw [hmapwd, List.mem_append]
    by_cases h : cat ∈ L.map (fun i => i.category)
    · exact Or.inl h
    · refine Or.inr ?_
      unfold ErgonomicAnalysisService.getMissingCategories
      rw [List.mem_filter]
      refine ⟨by cases cat <;> decide, ?_⟩
      simpa using h
  constructor
  · intro cat
    exact ((hperm.map (fun i => i.category)).mem_iff).mpr (hcov cat)
  · rw [hperm.length_eq]
    have hsub : ErgonomicAnalysisService.allCategories ⊆
        wd.map (fun i => i.category) := fun cat _ => hcov cat
    have hnodup : ErgonomicAnalysisService.allCategories.Nodup := by decide
    have := (hnodup.subperm hsub).length_le
    simpa using this

/-! ## Orchestrator retry loop (src/unnamed/part_008, lines 477-671) and
image validation (src/unnamed/part_006, lines 38-76) -/

/-- `AI_CONFIG` (src/types/ai-analysis.ts lines 95-102).  `TEMPERATURE` is
the rational 0.7. -/
structure AIConfigT where
  MODEL : String
  MAX_TOKENS : ℕ
  TEMPERATURE : ℚ
  TIMEOUT_MS : ℕ
  MAX_RETRIES : ℕ
  RETRY_DELAY_MS : ℕ

def AI_CONFIG : AIConfigT :=
  { MODEL := "gpt-4o"
    MAX_TOKENS := 4000
    TEMPERATURE := 7/10
    TIMEOUT_MS := 0
    MAX_RETRIES := 5
    RETRY_DELAY_MS := 2000 }

/-- Result of `AIImageProcessingService.validateImageForAI`: either valid,
or invalid with the error message (the `size` field of the source's record
is not relevant to any claim and is omitted). -/
inductive ImageValidation
  | valid
  | invalid (error : String)
  deriving DecidableEq, Repr

/-- `AIImageProcessingService.validateImageForAI` (src/unnamed/part_006
lines 38-76), as a function of the photo's byte length: reject images over
20 MB, then reject empty content.  The source computes
`sizeInMB = bytes.length / (1024 * 1024)` in binary64 and tests
`sizeInMB > 20`; dividing an integer by the power of two 1024·1024 is exact
in binary64, so that test is exactly `sizeBytes > 20 * 1024 * 1024`.  The
file-read failure branch (the `catch`) is environmental and not modelled. -/
def validateImageForAI (sizeBytes : ℕ) : ImageValidation :=
  if sizeBytes > 20 * 1024 * 1024 then
    .invalid "Image size exceeds 20MB limit for AI processing"
  else if sizeBytes = 0 then
    .invalid "Image file is empty or corrupted"
  else .valid

/-- One attempt of `AIAnalysisService.performAnalysis` (src/unnamed/part_008
lines 531-596) with everything after the validation gate abstracted: the
attempt first validates the photo and throws
`Image validation failed: ...` on failure (lines 539-542); otherwise it
proceeds with the model call / parsing / enrichment, whose outcome is the
parameter `rest`. -/
def performAnalysisGate (sizeBytes : ℕ) (rest : Except String α) :
    Except String α :=
  match validateImageForAI sizeBytes with
  | .invalid e => .error ("Image validation failed: " ++ e)
  | .valid => rest

/-- Observable trace of one `analyzeWorkspace` invocation: how many times
`performAnalysis` ran, the argument of each `delay(...)` call in order, and
the final outcome (`.error` models the thrown terminal error). -/
structure RetryTrace (α : Type) where
  attemptsMade : ℕ
  sleeps : List ℕ
  outcome : Except String α
  deriving Repr

/-- The retry loop body of `AIAnalysisService.analyzeWorkspace`
(src/unnamed/part_008 lines 502-525): `attempt` counts 1-based; on failure,
if `attempt < AI_CONFIG.MAX_RETRIES` sleep `RETRY_DELAY_MS * attempt`, then
try again; after the last failure throw
`Analysis failed after ${MAX_RETRIES} attempts: ${lastError.message}`.
`remaining` is the number of attempts still allowed
(`MAX_RETRIES - attempt + 1`); progress callbacks do not affect control
flow and are not traced. -/
def retryGo (attemptRes : ℕ → Except String α) :
    (remaining : ℕ) → (attempt : ℕ) → (calls : ℕ) → (sleeps : List ℕ) →
    (lastMsg : Option String) → RetryTrace α
  | 0, _attempt, calls, sleeps, lastMsg =>
    { attemptsMade := calls
      sleeps := sleeps
      outcome := .error ("Analysis failed after " ++
        toString AI_CONFIG.MAX_RETRIES ++ " attempts: " ++
        lastMsg.getD "Unknown error") }
  | remaining + 1, attempt, calls, sleeps, _lastMsg =>
    match attemptRes attempt with
    | .ok a =>
      { attemptsMade := calls + 1, sleeps := sleeps, outcome := .ok a }
    | .error e =>
      if remaining = 0 then
        retryGo attemptRes remaining (attempt + 1) (calls + 1) sleeps (some e)
      else
        retryGo attemptRes remaining (attempt + 1) (calls + 1)
          (sleeps ++ [AI_CONFIG.RETRY_DELAY_MS * attempt]) (some e)

/-- `AIAnalysisService.analyzeWorkspace` (src/unnamed/part_008 lines
482-526), abstracted over what a single `performAnalysis` attempt returns
(`attemptRes n` is the outcome of the n-th attempt, n = 1..MAX_RETRIES).
Prompt-context construction (line 497) is pure and cannot fail; the
`processingTime` stamp on success is environmental (`Date.now()`). -/
def analyzeWorkspaceLoop (attemptRes : ℕ → Except String α) : RetryTrace α :=
  retryGo attemptRes AI_CONFIG.MAX_RETRIES 1 0 [] none

/-- C6: when every attempt fails, the orchestrator performs exactly
`AI_CONFIG.MAX_RETRIES = 5` attempts, sleeps `attempt × RETRY_DELAY_MS`
(2000, 4000, 6000, 8000 ms) between consecutive attempts, and ends with a
single terminal error carrying the 5th (last) failure's message; no result
value is produced. -/
theorem analyzeWorkspace_exhausts_retries (α : Type) (errs : ℕ → String) :
    analyzeWorkspaceLoop (α := α) (fun i => .error (errs i)) =
      { attemptsMade := 5
        sleeps := [2000, 4000, 6000, 8000]
        outcome := .error ("Analysis failed after " ++ toString (5 : ℕ) ++
          " attempts: " ++ errs 5) } ∧
    AI_CONFIG.MAX_RETRIES = 5 ∧ AI_CONFIG.RETRY_DELAY_MS = 2000 := by
  exact ⟨rfl, rfl, rfl⟩

/-- C7: the code retries photo-validation failures.  With an empty photo
(0 bytes), every attempt's validation gate throws, and `analyzeWorkspace`
still performs all 5 attempts with backoff sleeps before surfacing the
terminal error — the validation failure is NOT treated as fail-fast,
contradicting the claim (and the code's own `createError`, src/unnamed/
part_008 line 668, which marks `INVALID_IMAGE` as not retryable). -/
theorem analyzeWorkspace_retries_validation_failure :
    analyzeWorkspaceLoop (α := Unit)
        (fun _ => performAnalysisGate 0 (.ok ())) =
      { attemptsMade := 5
        sleeps := [2000, 4000, 6000, 8000]
        outcome := .error ("Analysis failed after 5 attempts: " ++
          "Image validation failed: Image file is empty or corrupted") } ∧
    validateImageForAI 0 =
      .invalid "Image file is empty or corrupted" := by
  constructor
  · rfl
  · rfl

/-! ## Prompt context (src/services/ai-prompts.ts, lines 12-41) -/

/-- `AIPromptContext` (src/types/ai-analysis.ts lines 73-78). -/
structure AIPromptContext where
  userVibe : String
  colorPreference : String
  budgetRange : String
  imageDescription : String
  deriving DecidableEq, Repr

/-- `QuizResponse` as consumed by `createPromptContext`: a question id and
the selected option ids. -/
structure QuizResponse where
  questionId : String
  selectedOptionIds : List String
  deriving DecidableEq, Repr

namespace AIPromptService

/-- The `responseMap.get(qid)` of `createPromptContext` (src/services/
ai-prompts.ts lines 13-15): a JS `Map` built from `(questionId,
selectedOptionIds[0])` pairs keeps the LAST entry for a duplicated key, and
`selectedOptionIds[0]` of an empty selection is `undefined` (here
`none`). -/
def responseGet (rs : List QuizResponse) (qid : String) : Option String :=
  ((rs.filter (fun r => r.questionId = qid)).getLast?).bind
    (fun r => r.selectedOptionIds.head?)

/-- `vibeMap` (src/services/ai-prompts.ts lines 17-21). -/
def vibeMap (k : String) : Option String :=
  if k = "focus-minimal" then
    some "Focus & Minimal - Clean, distraction-free environment for deep work"
  else if k = "creative-inspiring" then
    some "Creative & Inspiring - Vibrant space that sparks creativity and innovation"
  else if k = "cozy-warm" then
    some "Cozy & Warm - Comfortable, welcoming atmosphere for relaxed productivity"
  else none

/-- `colorMap` (src/services/ai-prompts.ts lines 23-27). -/
def colorMap (k : String) : Option String :=
  if k = "neutral-tones" then
    some "Neutral Tones - Calming beiges, whites, and soft grays"
  else if k = "bold-accents" then
    some "Bold Accents - Energizing pops of color with strong contrasts"
  else if k = "natural-greens" then
    some "Natural Greens - Refreshing plant-inspired earth tones"
  else none

/-- `budgetMap` (src/services/ai-prompts.ts lines 29-33). -/
def budgetMap (k : String) : Option String :=
  if k = "budget-low" then
    some "Under $500 - Budget-friendly essentials and DIY solutions"
  else if k = "budget-mid" then
    some "$500 - $1500 - Quality pieces with good value for money"
  else if k = "budget-high" then
    some "$1500+ - Premium furniture and complete workspace transformation"
  else none

/-- `AIPromptService.createPromptContext` (src/services/ai-prompts.ts lines
12-41).  `responseMap.get(q) || ''` maps a missing/undefined answer to the
empty string, which no map contains, so the documented neutral defaults
apply. -/
def createPromptContext (quizResponses : List QuizResponse) : AIPromptContext :=
  { userVibe :=
      (vibeMap ((responseGet quizResponses "workspace-vibe").getD "")).getD
        "Modern and functional"
    colorPreference :=
      (colorMap ((responseGet quizResponses "color-preference").getD "")).getD
        "Neutral and calming"
    budgetRange :=
      (budgetMap ((responseGet quizResponses "budget-range").getD "")).getD
        "Mid-range quality"
    imageDescription := "" }

end AIPromptService

/-! ## Product recommendations (src/unnamed/part_009) -/

/-- `ProductRecommendation.category` (src/types/ai-analysis.ts line 19). -/
inductive ProductCategory
  | desk
  | chair
  | lighting
  | storage
  | decor
  | tech
  deriving DecidableEq, Repr

/-- The `price` record of `ProductRecommendation`
(src/types/ai-analysis.ts lines 14-18); min/max are integers here (rounded
base price ∓ rounded 20% variation). -/
structure Price where
  min : ℤ
  max : ℤ
  currency : String
  deriving DecidableEq, Repr

/-- `ProductRecommendation` (src/types/ai-analysis.ts lines 10-25);
`purchaseUrl`/`brand` are never set by this service and are omitted. -/
structure ProductRecommendation where
  id : String
  name : String
  description : String
  price : Price
  category : ProductCategory
  imageUrl : String
  tags : List String
  rating : ℚ
  deriving DecidableEq, Repr

/-- A catalog template as used inside the service (the object literals of
`getBaseProducts` / `getStyleSpecificProducts`). -/
structure ProductTemplate where
  category : ProductCategory
  name : String
  description : String
  basePrice : ℕ
  tags : List String
  deriving DecidableEq, Repr

/-- `encodeURIComponent` restricted to ASCII input (all product names here
are ASCII): percent-encode every byte except the unreserved characters
`A-Z a-z 0-9 - _ . ! ~ * ' ( )`. -/
def encodeURIComponent (s : String) : String :=
  let unreserved := fun (c : Char) =>
    c.isAlphanum || c ∈ ['-', '_', '.', '!', '~', '*', '\'', '(', ')']
  let hexDigit := fun (n : ℕ) =>
    "0123456789ABCDEF".data.getD n '0'
  ⟨s.data.flatMap (fun c =>
    if unreserved c then [c]
    else ['%', hexDigit (c.toNat / 16 % 16), hexDigit (c.toNat % 16)])⟩

namespace ProductRecommendationService

/-- `ProductRecommendationService.calculatePriceMultiplier`
(src/unnamed/part_009 lines 64-75).  Note the first branch tests the
SUBSTRING `'500'`, which also matches `'1500'`, so the second branch's
`'1500'` test is unreachable. -/
def calculatePriceMultiplier (budgetRange : Option String) : ℚ :=
  match budgetRange with
  | none => 1
  | some br =>
    if br = "" then 1 -- `if (!budgetRange)` also catches the empty string
    else
      let budgetStr := jsToLower br
      if jsIncludes budgetStr "under" || jsIncludes budgetStr "500" then
        3/5
      else if jsIncludes budgetStr "1500" || jsIncludes budgetStr "high" ||
          jsIncludes budgetStr "premium" then
        9/5
      else 1

/-- `getBaseProducts` (src/unnamed/part_009 lines 80-125). -/
def getBaseProducts : List ProductTemplate :=
  [ { category := .chair
      name := "Ergonomic Office Chair"
      description := "Comfortable office chair with lumbar support and adjustable height for better posture and productivity."
      basePrice := 150
      tags := ["ergonomic", "comfort", "productivity"] }
  , { category := .desk
      name := "Standing Desk Converter"
      description := "Adjustable desk converter that allows you to alternate between sitting and standing throughout the day."
      basePrice := 200
      tags := ["adjustable", "health", "ergonomic"] }
  , { category := .lighting
      name := "LED Desk Lamp"
      description := "Adjustable LED desk lamp with multiple brightness levels and color temperatures to reduce eye strain."
      basePrice := 60
      tags := ["adjustable", "eye-care", "modern"] }
  , { category := .storage
      name := "Desktop Organizer"
      description := "Multi-compartment desk organizer to keep your workspace tidy and improve organization."
      basePrice := 35
      tags := ["organization", "tidy", "productivity"] }
  , { category := .tech
      name := "Monitor Stand"
      description := "Adjustable monitor stand to improve screen positioning and reduce neck strain."
      basePrice := 45
      tags := ["ergonomic", "adjustable", "organization"] }
  , { category := .decor
      name := "Desktop Plant"
      description := "Low-maintenance succulent or air plant to add natural elements and improve air quality."
      basePrice := 25
      tags := ["natural", "air-quality", "aesthetic"] } ]

/-- `getStyleSpecificProducts` (src/unnamed/part_009 lines 130-188). -/
def getStyleSpecificProducts (userVibe : Option String) : List ProductTemplate :=
  match userVibe with
  | none => []
  | some v =>
    let vibe := jsToLower v
    (if jsIncludes vibe "modern" || jsIncludes vibe "minimalist" then
      [ { category := .decor
          name := "Minimalist Wall Art"
          description := "Clean, geometric wall art that complements a modern workspace aesthetic."
          basePrice := 40
          tags := ["modern", "minimalist", "aesthetic"] } ]
    else []) ++
    (if jsIncludes vibe "cozy" || jsIncludes vibe "warm" then
      [ { category := .lighting
          name := "Warm Ambient Light"
          description := "Soft, warm lighting to create a cozy and comfortable workspace atmosphere."
          basePrice := 55
          tags := ["cozy", "warm", "ambient"] } ]
    else []) ++
    (if jsIncludes vibe "productive" || jsIncludes vibe "professional" then
      [ { category := .storage
          name := "Filing Cabinet"
          description := "Compact filing cabinet to organize documents and maintain a professional workspace."
          basePrice := 120
          tags := ["professional", "organization", "storage"] } ]
    else []) ++
    (if jsIncludes vibe "creative" || jsIncludes vibe "artistic" then
      [ { category := .decor
          name := "Inspiration Board"
          description := "Cork board or magnetic board for displaying ideas, sketches, and inspiration."
          basePrice := 30
          tags := ["creative", "inspiration", "organization"] } ]
    else []) ++
    (if jsIncludes vibe "tech" || jsIncludes vibe "gaming" then
      [ { category := .tech
          name := "RGB LED Strip"
          description := "Customizable RGB LED lighting to create an immersive tech workspace atmosphere."
          basePrice := 35
          tags := ["tech", "gaming", "customizable"] } ]
    else [])

/-- `ProductRecommendationService.generateRecommendations`
(src/unnamed/part_009 lines 11-59).  `analysisData` is accepted but unused
by the source's happy path, exactly as here.  `rand i` models the
`Math.random()` draw used for the rating of the i-th recommendation; the
literal `0.2` is modelled as the exact rational 1/5 (its binary64 rounding
error cannot move any product of these integer prices across a rounding
boundary, as `adjustedPrice/5` is never a half-integer).  The `catch`
branch returning `getFallbackRecommendations` is unreachable for well-typed
input and therefore not part of this function. -/
def generateRecommendations (analysisData : α) (promptContext : AIPromptContext)
    (rand : ℕ → ℚ) : List ProductRecommendation :=
  let _ := analysisData
  let priceMultiplier := calculatePriceMultiplier (some promptContext.budgetRange)
  let baseProducts := getBaseProducts
  let styleProducts := getStyleSpecificProducts (some promptContext.userVibe)
  let allProducts := baseProducts ++ styleProducts
  let selectedProducts := allProducts.take 8
  selectedProducts.enum.map (fun ip =>
    let index := ip.1
    let product := ip.2
    let adjustedPrice := jsRound ((product.basePrice : ℚ) * priceMultiplier)
    let priceVariation := jsRound ((adjustedPrice : ℚ) * (1/5))
    { id := "rec_" ++ toString (index + 1)
      name := product.name
      description := product.description
      price := { min := adjustedPrice - priceVariation
                 max := adjustedPrice + priceVariation
                 currency := "USD" }
      category := product.category
      imageUrl := "https://via.placeholder.com/300x200/4A90E2/FFFFFF?text=" ++
        encodeURIComponent product.name
      tags := product.tags
      rating := 42/10 + rand index * (6/10) })

/-- `getFallbackRecommendations` (src/unnamed/part_009 lines 193-226). -/
def getFallbackRecommendations : List ProductRecommendation :=
  [ { id := "rec_fallback_1"
      name := "Ergonomic Office Chair"
      description := "Comfortable office chair with lumbar support for better posture."
      price := { min := 120, max := 180, currency := "USD" }
      category := .chair
      imageUrl := "https://via.placeholder.com/300x200/4A90E2/FFFFFF?text=Office+Chair"
      tags := ["ergonomic", "comfort"]
      rating := 43/10 }
  , { id := "rec_fallback_2"
      name := "LED Desk Lamp"
      description := "Adjustable LED desk lamp to reduce eye strain."
      price := { min := 45, max := 75, currency := "USD" }
      category := .lighting
      imageUrl := "https://via.placeholder.com/300x200/4A90E2/FFFFFF?text=Desk+Lamp"
      tags := ["lighting", "adjustable"]
      rating := 45/10 }
  , { id := "rec_fallback_3"
      name := "Desktop Organizer"
      description := "Multi-compartment organizer to keep your workspace tidy."
      price := { min := 25, max := 45, currency := "USD" }
      category := .storage
      imageUrl := "https://via.placeholder.com/300x200/4A90E2/FFFFFF?text=Organizer"
      tags := ["organization", "storage"]
      rating := 44/10 } ]

end ProductRecommendationService

/-! ## Response parsing (src/unnamed/part_007)

`JSON.parse` is modelled by an executable recursive-descent parser over the
character list, returning `none` exactly where `JSON.parse` throws; numbers
are kept as their source lexemes (no claim inspects numeric values).  The
two regex probes of `extractStructuredData` are modelled by direct
constructions: `/three-backticks-json\s*([\s\S]*?)\s*three-backticks/` finds the first
literal tag, then the first closing backtick run after it (lazy group),
trimming surrounding whitespace; the greedy `/\x7b[\s\S]*\x7d/` spans from the
first `\x7b` to the last `\x7d` when that span is non-degenerate. -/

/-- JSON values; `num` keeps the number lexeme verbatim. -/
inductive Json
  | null
  | bool (b : Bool)
  | num (lexeme : String)
  | str (s : String)
  | arr (elems : List Json)
  | obj (fields : List (String × Json))
  deriving Repr

/-- Is the character JSON insignificant whitespace (also the core of the
JS `\s` class for the ASCII texts at hand)? -/
def isJsonWs (c : Char) : Bool :=
  c = ' ' || c = '\t' || c = '\n' || c = '\x0d'

/-- Drop leading JSON whitespace. -/
def skipWs (cs : List Char) : List Char := cs.dropWhile isJsonWs

/-- Trim JSON/JS whitespace from both ends of a character list. -/
def trimWsCL (cs : List Char) : List Char :=
  ((cs.dropWhile isJsonWs).reverse.dropWhile isJsonWs).reverse

/-- First index at which the needle occurs in the list, if any. -/
def findSub (needle : List Char) : List Char → Option ℕ
  | [] => if needle.isEmpty then some 0 else none
  | c :: cs =>
    if leadsWith needle (c :: cs) then some 0
    else (findSub needle cs).map (· + 1)

/-- Decimal digit? -/
def isDigitCh (c : Char) : Bool := '0' ≤ c && c ≤ '9'

/-- Lex one JSON number (sign, integer part without leading zeros,
optional fraction, optional exponent), returning the lexeme and the rest. -/
def parseNumberLex (cs : List Char) : Option (List Char × List Char) :=
  let (sign, cs1) :=
    match cs with
    | '-' :: r => (['-'], r)
    | _ => ([], cs)
  match cs1 with
  | [] => none
  | d :: r =>
    if d = '0' then
      let (frac, r2) := lexFrac r
      match frac with
      | none => none
      | some fr => some (sign ++ ['0'] ++ fr, r2)
    else if isDigitCh d then
      let digits := (d :: r).takeWhile isDigitCh
      let r1 := (d :: r).dropWhile isDigitCh
      let (frac, r2) := lexFrac r1
      match frac with
      | none => none
      | some fr => some (sign ++ digits ++ fr, r2)
    else none
where
  /-- Fraction and exponent suffix (possibly empty); `none` on a malformed
  suffix such as a dot without digits. -/
  lexFrac (cs : List Char) : Option (List Char) × List Char :=
    let (fr, cs1) :=
      match cs with
      | '.' :: r =>
        let ds := r.takeWhile isDigitCh
        if ds.isEmpty then (none, cs)
        else (some ('.' :: ds), r.dropWhile isDigitCh)
      | _ => (some [], cs)
    match fr with
    | none => (none, cs)
    | some fr =>
      match cs1 with
      | e :: r =>
        if e = 'e' ∨ e = 'E' then
          let (sg, r2) :=
            match r with
            | '+' :: rr => (['+'], rr)
            | '-' :: rr => (['-'], rr)
            | _ => ([], r)
          let ds := r2.takeWhile isDigitCh
          if ds.isEmpty then (none, cs1)
          else (some (fr ++ [e] ++ sg ++ ds), r2.dropWhile isDigitCh)
        else (some fr, cs1)
      | [] => (some fr, cs1)

/-- Value of one hex digit, if it is one. -/
def hexVal (c : Char) : Option ℕ :=
  if '0' ≤ c ∧ c ≤ '9' then some (c.toNat - '0'.toNat)
  else if 'a' ≤ c ∧ c ≤ 'f' then some (c.toNat - 'a'.toNat + 10)
  else if 'A' ≤ c ∧ c ≤ 'F' then some (c.toNat - 'A'.toNat + 10)
  else none

/-- Lex a JSON string body (the opening quote already consumed), decoding
escapes; the fuel argument (one per input character suffices) keeps the
recursion structural.  A `\uXXXX` scalar is decoded directly; a surrogate pair is
combined; a lone surrogate (legal for `JSON.parse`, unrepresentable in a
Lean `Char`) becomes U+FFFD — no claim inspects such strings. -/
def parseStringLit : ℕ → List Char → List Char → Option (String × List Char)
  | 0, _, _ => none
  | _ + 1, acc, [] =>
    let _ := acc
    none
  | _ + 1, acc, '"' :: cs => some (⟨acc⟩, cs)
  | fuel + 1, acc, '\\' :: cs =>
    match cs with
    | [] => none
    | 'u' :: h1 :: h2 :: h3 :: h4 :: cs2 =>
      match hexVal h1, hexVal h2, hexVal h3, hexVal h4 with
      | some a, some b, some c, some d =>
        let n := ((a * 16 + b) * 16 + c) * 16 + d
        if 0xD800 ≤ n ∧ n ≤ 0xDBFF then
          match cs2 with
          | '\\' :: 'u' :: l1 :: l2 :: l3 :: l4 :: cs3 =>
            match hexVal l1, hexVal l2, hexVal l3, hexVal l4 with
            | some a2, some b2, some c2, some d2 =>
              let m := ((a2 * 16 + b2) * 16 + c2) * 16 + d2
              if 0xDC00 ≤ m ∧ m ≤ 0xDFFF then
                parseStringLit fuel
                  (acc ++ [Char.ofNat (0x10000 + (n - 0xD800) * 0x400 + (m - 0xDC00))]) cs3
              else parseStringLit fuel (acc ++ [Char.ofNat 0xFFFD]) cs2
            | _, _, _, _ => parseStringLit fuel (acc ++ [Char.ofNat 0xFFFD]) cs2
          | _ => parseStringLit fuel (acc ++ [Char.ofNat 0xFFFD]) cs2
        else if 0xDC00 ≤ n ∧ n ≤ 0xDFFF then
          parseStringLit fuel (acc ++ [Char.ofNat 0xFFFD]) cs2
        else parseStringLit fuel (acc ++ [Char.ofNat n]) cs2
      | _, _, _, _ => none
    | e :: cs2 =>
      if e = '"' then parseStringLit fuel (acc ++ ['"']) cs2
      else if e = '\\' then parseStringLit fuel (acc ++ ['\\']) cs2
      else if e = '/' then parseStringLit fuel (acc ++ ['/']) cs2
      else if e = 'b' then parseStringLit fuel (acc ++ ['\x08']) cs2
      else if e = 'f' then parseStringLit fuel (acc ++ ['\x0c']) cs2
      else if e = 'n' then parseStringLit fuel (acc ++ ['\n']) cs2
      else if e = 'r' then parseStringLit fuel (acc ++ ['\x0d']) cs2
      else if e = 't' then parseStringLit fuel (acc ++ ['\t']) cs2
      else none
  | fuel + 1, acc, c :: cs =>
    if c.toNat < 32 then none
    else parseStringLit fuel (acc ++ [c]) cs

/-- What the fueled JSON parser is currently parsing: a value, the
remaining elements of an array, or the remaining fields of an object. -/
inductive PTask
  | val
  | elems (acc : List Json)
  | fields (acc : List (String × Json))

/-- Fueled recursive-descent JSON parser; each recursive call either
consumes input or switches task after consuming, so fuel
`2·length + 4` always suffices. -/
def pjson : ℕ → PTask → List Char → Option (Json × List Char)
  | 0, _, _ => none
  | fuel + 1, .val, cs =>
    match skipWs cs with
    | [] => none
    | c :: rest =>
      if c = '\x7b' then
        match skipWs rest with
        | '\x7d' :: r2 => some (.obj [], r2)
        | cs2 => pjson fuel (.fields []) cs2
      else if c = '[' then
        match skipWs rest with
        | ']' :: r2 => some (.arr [], r2)
        | cs2 => pjson fuel (.elems []) cs2
      else if c = '"' then
        match parseStringLit (rest.length + 1) [] rest with
        | some (s, r) => some (.str s, r)
        | none => none
      else if leadsWith "true".data (c :: rest) then
        some (.bool true, rest.drop 3)
      else if leadsWith "false".data (c :: rest) then
        some (.bool false, rest.drop 4)
      else if leadsWith "null".data (c :: rest) then
        some (.null, rest.drop 3)
      else
        match parseNumberLex (c :: rest) with
        | some (lex, r) => some (.num ⟨lex⟩, r)
        | none => none
  | fuel + 1, .elems acc, cs =>
    match pjson fuel .val cs with
    | none => none
    | some (v, r) =>
      match skipWs r with
      | ',' :: r3 => pjson fuel (.elems (acc ++ [v])) r3
      | ']' :: r3 => some (.arr (acc ++ [v]), r3)
      | _ => none
  | fuel + 1, .fields acc, cs =>
    match skipWs cs with
    | '"' :: rest =>
      match parseStringLit (rest.length + 1) [] rest with
      | none => none
      | some (k, r) =>
        match skipWs r with
        | ':' :: r2 =>
          match pjson fuel .val r2 with
          | none => none
          | some (v, r3) =>
            match skipWs r3 with
            | ',' :: r5 => pjson fuel (.fields (acc ++ [(k, v)])) r5
            | '\x7d' :: r5 => some (.obj (acc ++ [(k, v)]), r5)
            | _ => none
        | _ => none
    | _ => none

/-- `JSON.parse`: parse one value, allow only trailing whitespace;
`none` models the thrown `SyntaxError`. -/
def Json.parse (s : String) : Option Json :=
  match pjson (2 * s.length + 4) .val s.data with
  | some (v, rest) => if (skipWs rest).isEmpty then some v else none
  | none => none

/-- Does the parsed object have the given top-level key? -/
def Json.hasField (j : Json) (key : String) : Bool :=
  match j with
  | .obj fields => fields.any (fun kv => kv.1 == key)
  | _ => false

namespace AIResponseParserService

/-- The fenced-block probe of `extractStructuredData` (src/unnamed/part_007
line 142): first literal backtick-backtick-backtick-json tag, then the
first closing backtick run after it (the lazy group), whitespace trimmed on
both sides by the pattern's two `\s*`. -/
def fencedJsonBlock (s : String) : Option String :=
  match findSub "```json".data s.data with
  | none => none
  | some i =>
    let afterTag := s.data.drop (i + 7)
    match findSub "```".data afterTag with
    | none => none
    | some j => some ⟨trimWsCL (afterTag.take j)⟩

/-- The object probe of `extractStructuredData` (src/unnamed/part_007 line
148): the greedy pattern spans from the first opening brace to the last
closing brace, matching iff the last closing brace lies after the first
opening one. -/
def braceSpan (s : String) : Option String :=
  let cs := s.data
  match findSub ['\x7b'] cs, (findSub ['\x7d'] cs.reverse).map
      (fun k => cs.length - 1 - k) with
  | some i, some j =>
    if i < j then some ⟨(cs.drop i).take (j - i + 1)⟩ else none
  | _, _ => none

/-- `parseUnstructuredResponse` (src/unnamed/part_007 lines 9-25): the
fixed best-effort object whose `workspace_description` is the first 200
characters of the raw content plus an ellipsis.  (`substring` counts UTF-16
units; all relevant texts are ASCII.) -/
def parseUnstructuredResponse (content : String) : Json :=
  .obj
    [ ("workspace_description", .str (⟨content.data.take 200⟩ ++ "..."))
    , ("style_assessment", .obj
        [ ("current_style", .str "Modern workspace")
        , ("alignment_score", .num "0.7")
        , ("alignment_explanation", .str "Good potential for improvement") ])
    , ("ergonomic_evaluation", .arr [])
    , ("improvement_priorities", .arr
        [ .str "Enhance ergonomics"
        , .str "Improve organization"
        , .str "Add personal touches" ])
    , ("color_analysis", .obj
        [ ("dominant_colors", .arr
            [.str "#F5F5F5", .str "#E0E0E0", .str "#D0D0D0"])
        , ("mood", .str "focus")
        , ("color_harmony", .str "Neutral color scheme") ]) ]

/-- `AIResponseParserService.extractStructuredData` (src/unnamed/part_007
lines 139-159): fenced JSON first, then the first-to-last brace span, then
the unstructured fallback; a `JSON.parse` failure in either probe lands in
the `catch`, which also returns the unstructured fallback. -/
def extractStructuredData (aiContent : String) : Json :=
  match fencedJsonBlock aiContent with
  | some t =>
    match Json.parse t with
    | some v => v
    | none => parseUnstructuredResponse aiContent
  | none =>
    match braceSpan aiContent with
    | some t =>
      match Json.parse t with
      | some v => v
      | none => parseUnstructuredResponse aiContent
    | none => parseUnstructuredResponse aiContent

end AIResponseParserService

/-- C2 counterexample: on the valid-JSON input `\x7b"a": 1\x7d` (which the
claim's "valid JSON missing fields" case covers), `extractStructuredData`
returns the parsed object verbatim, and that object has NO
workspace-description field — the fallback placeholder is only substituted
on the unstructured path. -/
theorem extractStructuredData_json_missing_field :
    AIResponseParserService.extractStructuredData "\x7b\"a\": 1\x7d" =
      Json.obj [("a", Json.num "1")] ∧
    Json.hasField
      (AIResponseParserService.extractStructuredData "\x7b\"a\": 1\x7d")
      "workspace_description" = false := by
  constructor
  · rfl
  · rfl

/-- C2 (amended): `extractStructuredData` is total — every input string
(empty, prose, malformed JSON, any JSON) yields a value, every `JSON.parse`
failure being modelled as `none` and routed to the unstructured fallback —
and its result either IS the unstructured fallback object, which always
carries a `workspace_description` field, or is exactly the value
`JSON.parse` produced for the fenced block (or, absent one, the brace
span), which need not contain `workspace_description` at all. -/
theorem extractStructuredData_total (s : String) :
    (AIResponseParserService.extractStructuredData s =
        AIResponseParserService.parseUnstructuredResponse s ∧
      Json.hasField (AIResponseParserService.parseUnstructuredResponse s)
        "workspace_description" = true) ∨
    (∃ t : String,
      (AIResponseParserService.fencedJsonBlock s = some t ∨
        (AIResponseParserService.fencedJsonBlock s = none ∧
          AIResponseParserService.braceSpan s = some t)) ∧
      Json.parse t =
        some (AIResponseParserService.extractStructuredData s)) := by
  have hwd : Json.hasField (AIResponseParserService.parseUnstructuredResponse s)
      "workspace_description" = true := by
    rfl
  unfold AIResponseParserService.extractStructuredData
  rcases hf : AIResponseParserService.fencedJsonBlock s with _ | t
  · rcases hb : AIResponseParserService.braceSpan s with _ | t
    · exact Or.inl ⟨rfl, hwd⟩
    · dsimp only
      rcases hp : Json.parse t with _ | v
      · exact Or.inl ⟨rfl, hwd⟩
      · exact Or.inr ⟨t, Or.inr ⟨rfl, rfl⟩, hp⟩
  · dsimp only
    rcases hp : Json.parse t with _ | v
    · exact Or.inl ⟨rfl, hwd⟩
    · exact Or.inr ⟨t, Or.inl rfl, hp⟩

/-! ## The text cleaner `AIResponseParserService.cleanText`
(src/unnamed/part_007, lines 73-134)

Each `String.replace(regex, ...)` of the source is embedded as an explicit
character-list transformation with the exact semantics of the regex on the
string at that stage (greedy/lazy groups and anchors resolved as the JS
engine does); global literal scans use a fuel argument (length + 1 always
suffices — every step consumes at least one character) so that everything
stays structurally recursive and kernel-evaluable.  The JS `\s` class and
`String.trim` are modelled on their ASCII part (space, tab, and the four
control line/page separators); no claim involves non-ASCII whitespace. -/

/-- ASCII part of the JS `\s` character class. -/
def isJsWs (c : Char) : Bool :=
  c = ' ' || c = '\t' || c = '\n' || c = '\x0d' || c = '\x0b' || c = '\x0c'

/-- ASCII alphanumeric (the `a-zA-Z0-9` ranges of the source's classes). -/
def isAsciiAlnum (c : Char) : Bool :=
  ('a' ≤ c && c ≤ 'z') || ('A' ≤ c && c ≤ 'Z') || ('0' ≤ c && c ≤ '9')

/-- The JS `\w` class: ASCII alphanumeric or underscore. -/
def isWordChar (c : Char) : Bool := isAsciiAlnum c || c = '_'

/-- Does the tag match at the head of the list, optionally
case-insensitively (the regex `i` flag)? -/
def tagLeads (ci : Bool) : List Char → List Char → Bool
  | [], _ => true
  | _ :: _, [] => false
  | p :: ps, c :: cs =>
    (if ci then p.toLower == c.toLower else p == c) && tagLeads ci ps cs

/-- The source's global replace of a literal TAG followed by `\s*` with the
empty string: remove every occurrence of the tag together with the
whitespace run following it. -/
def scrubTag (tag : List Char) (ci : Bool) : ℕ → List Char → List Char
  | 0, cs => cs
  | _ + 1, [] => []
  | fuel + 1, c :: cs =>
    if tagLeads ci tag (c :: cs) then
      scrubTag tag ci fuel (((c :: cs).drop tag.length).dropWhile isJsWs)
    else c :: scrubTag tag ci fuel cs

/-- `replace(/PAT/g, REP)` for literal PAT/REP: left-to-right,
non-overlapping, no rescan of the replacement. -/
def replaceLit (pat rep : List Char) : ℕ → List Char → List Char
  | 0, cs => cs
  | _ + 1, [] => []
  | fuel + 1, c :: cs =>
    if leadsWith pat (c :: cs) then
      rep ++ replaceLit pat rep fuel ((c :: cs).drop pat.length)
    else c :: replaceLit pat rep fuel cs

/-- Expect one specific character. -/
def expectCh (ch : Char) : List Char → Option (List Char)
  | c :: r => if c = ch then some r else none
  | [] => none

/-- Trim the JS whitespace class from both ends (JS `String.trim` on
ASCII input). -/
def trimJsWs (cs : List Char) : List Char :=
  ((cs.dropWhile isJsWs).reverse.dropWhile isJsWs).reverse

/-- Keep the parse result, or the input when the pattern did not match. -/
def applyOpt (f : List Char → Option (List Char)) (cs : List Char) :
    List Char :=
  (f cs).getD cs

/-- Line 85, `/^\s*\x7b\s*"[^"]*"\s*:\s*"([^"]*)".*\x7d\s*$/s → '$1'`: a
whole-string quoted-key object wrapper; the greedy dotall `.*` before the
closing brace means the text after the captured value must end (modulo
trailing whitespace) with a closing brace. -/
def jsonWrapperKeyed (cs : List Char) : Option (List Char) :=
  (expectCh '\x7b' (cs.dropWhile isJsWs)).bind fun r1 =>
  (expectCh '"' (r1.dropWhile isJsWs)).bind fun r2 =>
  let r3 := r2.dropWhile (fun c => c ≠ '"')
  (expectCh '"' r3).bind fun r4 =>
  (expectCh ':' (r4.dropWhile isJsWs)).bind fun r5 =>
  (expectCh '"' (r5.dropWhile isJsWs)).bind fun r6 =>
  let grp := r6.takeWhile (fun c => c ≠ '"')
  (expectCh '"' (r6.dropWhile (fun c => c ≠ '"'))).bind fun r7 =>
  match (trimJsWs r7).getLast? with
  | some '\x7d' => some grp
  | _ =>
    match trimJsWs r7 with
    | [] => none
    | _ => none

/-- Line 86, `/^\s*\x7b\s*([^\x7d]*)\s*\x7d\s*$/s → '$1'`: a whole-string
object wrapper; the greedy brace-free group keeps any inner whitespace, and
only whitespace may follow the first closing brace. -/
def jsonWrapperBare (cs : List Char) : Option (List Char) :=
  (expectCh '\x7b' (cs.dropWhile isJsWs)).bind fun r1 =>
  let grp := r1.takeWhile (fun c => c ≠ '\x7d')
  (expectCh '\x7d' (r1.dropWhile (fun c => c ≠ '\x7d'))).bind fun r2 =>
  if (r2.dropWhile isJsWs).isEmpty then some grp else none

/-- Line 87, the same for `[...]` wrappers. -/
def arrayWrapper (cs : List Char) : Option (List Char) :=
  (expectCh '[' (cs.dropWhile isJsWs)).bind fun r1 =>
  let grp := r1.takeWhile (fun c => c ≠ ']')
  (expectCh ']' (r1.dropWhile (fun c => c ≠ ']'))).bind fun r2 =>
  if (r2.dropWhile isJsWs).isEmpty then some grp else none

/-- Line 90, `/^[^:]*:\s*"([^"]*)".*$/s → '$1'`: everything before the
FIRST colon, the colon, greedy whitespace, then a quoted value; the
anchored `[^:]*` and greedy `\s*` admit no backtracking, so the quote must
follow the whitespace run directly. -/
def keyColonQuoted (cs : List Char) : Option (List Char) :=
  let rest := cs.dropWhile (fun c => c ≠ ':')
  (expectCh ':' rest).bind fun r1 =>
  (expectCh '"' (r1.dropWhile isJsWs)).bind fun r2 =>
  let grp := r2.takeWhile (fun c => c ≠ '"')
  (expectCh '"' (r2.dropWhile (fun c => c ≠ '"'))).map fun _ => grp

/-- Line 91, `/^[^:]*:\s*([^,\x7d]*).*$/s → '$1'`: succeeds whenever a
colon is present, capturing from after the first colon and its whitespace
up to the first comma or closing brace. -/
def keyColonBare (cs : List Char) : Option (List Char) :=
  let rest := cs.dropWhile (fun c => c ≠ ':')
  (expectCh ':' rest).map fun r1 =>
  (r1.dropWhile isJsWs).takeWhile (fun c => c ≠ ',' ∧ c ≠ '\x7d')

/-- Line 94, `/^["']|["']$/g`: drop one leading and one trailing quote
character. -/
def stripEdgeQuotes (cs : List Char) : List Char :=
  let l1 :=
    match cs with
    | c :: r => if c = '"' ∨ c = '\'' then r else cs
    | [] => []
  match l1.getLast? with
  | some c => if c = '"' ∨ c = '\'' then l1.dropLast else l1
  | none => l1

/-- Line 104, `/,\s*$/ → ''`: remove a trailing comma together with the
whitespace after it (the first comma whose suffix is all whitespace is
necessarily the last comma). -/
def stripTrailingComma (cs : List Char) : List Char :=
  let t := (cs.reverse.dropWhile isJsWs).reverse
  match t.getLast? with
  | some ',' => t.dropLast
  | _ => cs

/-- Line 105, `/^\s*,/ → ''`: remove leading whitespace when a comma
follows it, together with that comma. -/
def stripLeadingComma (cs : List Char) : List Char :=
  match cs.dropWhile isJsWs with
  | ',' :: r => r
  | _ => cs

/-- Lines 109-110 (`^"KEY":` then `\s*`, a quoted value, an optional comma
and trailing `\s*`, case-insensitively, replaced by the empty string):
strip a leading quoted key-value pair for a fixed key. -/
def stripKeyValHead (key : List Char) (cs : List Char) : Option (List Char) :=
  (expectCh '"' cs).bind fun r1 =>
  if tagLeads true key r1 then
    let r2 := r1.drop key.length
    (expectCh '"' r2).bind fun r3 =>
    (expectCh ':' r3).bind fun r4 =>
    (expectCh '"' (r4.dropWhile isJsWs)).bind fun r5 =>
    (expectCh '"' (r5.dropWhile (fun c => c ≠ '"'))).map fun r6 =>
    let r7 :=
      match r6 with
      | ',' :: rr => rr
      | _ => r6
    r7.dropWhile isJsWs
  else none

/-- Lines 111-112, `/^"KEY":\s*"([^"]*)".*$/i → '$1'` WITHOUT the dotall
flag: the captured value replaces everything, but only when no line
terminator occurs after the closing quote (`.` does not match them). -/
def extractKeyQuoted (key : List Char) (cs : List Char) : Option (List Char) :=
  (expectCh '"' cs).bind fun r1 =>
  if tagLeads true key r1 then
    let r2 := r1.drop key.length
    (expectCh '"' r2).bind fun r3 =>
    (expectCh ':' r3).bind fun r4 =>
    (expectCh '"' (r4.dropWhile isJsWs)).bind fun r5 =>
    let grp := r5.takeWhile (fun c => c ≠ '"')
    (expectCh '"' (r5.dropWhile (fun c => c ≠ '"'))).bind fun r6 =>
    if r6.all (fun c => c ≠ '\n' ∧ c ≠ '\x0d') then some grp else none
  else none

/-- Line 115 (global: a quoted key, a colon and `\s*`, replaced by the
empty string): remove every quoted-key-colon occurrence together with the
whitespace after the colon. -/
def removeQuotedKeys : ℕ → List Char → List Char
  | 0, cs => cs
  | _ + 1, [] => []
  | fuel + 1, c :: cs =>
    if c = '"' then
      match cs.dropWhile (fun x => x ≠ '"') with
      | '"' :: ':' :: r2 => removeQuotedKeys fuel (r2.dropWhile isJsWs)
      | _ => c :: removeQuotedKeys fuel cs
    else c :: removeQuotedKeys fuel cs

/-- Line 116, `/"\s*,?\s*$/g → ''`: cut from the earliest quote whose
suffix is whitespace, an optional comma, and whitespace to the end. -/
def stripTrailingQuoteComma (cs : List Char) : List Char :=
  match cutFrom cs with
  | some kept => kept
  | none => cs
where
  /-- The prefix before the earliest matching quote, if any. -/
  cutFrom : List Char → Option (List Char)
    | [] => none
    | c :: cs =>
      if c = '"' ∧ tailMatches cs then some []
      else (cutFrom cs).map (fun kept => c :: kept)
  /-- Is the remainder `\s*,?\s*` to the end? -/
  tailMatches (cs : List Char) : Bool :=
    let r := cs.dropWhile isJsWs
    let r2 :=
      match r with
      | ',' :: rr => rr
      | _ => r
    (r2.dropWhile isJsWs).isEmpty

/-- Line 120, `/\s+/g → ' '`: collapse each whitespace run to one space. -/
def collapseWs : ℕ → List Char → List Char
  | 0, cs => cs
  | _ + 1, [] => []
  | fuel + 1, c :: cs =>
    if isJsWs c then ' ' :: collapseWs fuel (cs.dropWhile isJsWs)
    else c :: collapseWs fuel cs

/-- Lines 129-131: capitalize the first character when it is a lowercase
letter. -/
def capitalizeFirst : List Char → List Char
  | [] => []
  | c :: r => if 'a' ≤ c ∧ c ≤ 'z' then c.toUpper :: r else c :: r

namespace AIResponseParserService

/-- `AIResponseParserService.cleanText` (src/unnamed/part_007 lines
73-134).  `none` models `undefined`/`null` (and any non-string, per the
`typeof` guard); the empty string is falsy and also yields `""`. -/
def cleanText (text : Option String) : String :=
  match text with
  | none => ""
  | some t =>
    if t = "" then ""
    else
      let l0 := t.data
      let l1 := scrubTag "```json".data true (l0.length + 1) l0
      let l2 := scrubTag "```".data false (l1.length + 1) l1
      let l3 := applyOpt jsonWrapperKeyed l2
      let l4 := applyOpt jsonWrapperBare l3
      let l5 := applyOpt arrayWrapper l4
      let l6 := applyOpt keyColonQuoted l5
      let l7 := applyOpt keyColonBare l6
      let l8 := stripEdgeQuotes l7
      let l9 := replaceLit "\\\"".data "\"".data (l8.length + 1) l8
      let l10 := replaceLit "\\n".data " ".data (l9.length + 1) l9
      let l11 := replaceLit "\\t".data " ".data (l10.length + 1) l10
      let l12 := replaceLit "\\r".data "".data (l11.length + 1) l11
      let l13 := replaceLit "\\\\".data "\\".data (l12.length + 1) l12
      let l14 := stripTrailingComma l13
      let l15 := stripLeadingComma l14
      let l16 := l15.filter
        (fun c => !(c = '\x7b' || c = '\x7d' || c = '[' || c = ']'))
      let l17 := applyOpt (stripKeyValHead "category".data) l16
      let l18 := applyOpt (stripKeyValHead "status".data) l17
      let l19 := applyOpt (extractKeyQuoted "observation".data) l18
      let l20 := applyOpt (extractKeyQuoted "recommendation".data) l19
      let l21 := removeQuotedKeys (l20.length + 1) l20
      let l22 := stripTrailingQuoteComma l21
      let l23 := l22.dropWhile (fun c => !isAsciiAlnum c)
      let l24 := collapseWs (l23.length + 1) l23
      let l25 := trimJsWs l24
      if l25.isEmpty ∨ l25.length < 3 ∨ l25.all (fun c => !isWordChar c) then
        ""
      else ⟨capitalizeFirst l25⟩

end AIResponseParserService

/-! ### Idempotence domain of the text cleaner (claim C9)

`cleanText` is NOT idempotent on its own outputs (see the counterexample
below); it is the identity on "simple clean" text: ASCII alphanumerics and
single interior spaces, at least 3 characters, starting with an uppercase
letter or a digit.  The lemmas below show every stage of the cleaning chain
fixes such text. -/

/-- Uppercase letters and digits (allowed first characters of simple clean
text: the capitalization step fixes them). -/
def udChars : List Char := "ABCDEFGHIJKLMNOPQRSTUVWXYZ0123456789".data

/-- All characters allowed in simple clean text. -/
def plainChars : List Char :=
  "ABCDEFGHIJKLMNOPQRSTUVWXYZabcdefghijklmnopqrstuvwxyz0123456789 ".data

/-- No two adjacent spaces. -/
def noTwoSpaces : List Char → Bool
  | a :: b :: r => !(a = ' ' && b = ' ') && noTwoSpaces (b :: r)
  | _ => true

/-- First character is an uppercase letter or digit. -/
def headIsUD : List Char → Bool
  | c :: _ => c ∈ udChars
  | [] => false

/-- Text does not end in a space. -/
def lastNotSpace (l : List Char) : Bool :=
  match l.getLast? with
  | some c => c ≠ ' '
  | none => true

/-- Simple clean text: length ≥ 3, head an uppercase letter or digit, only
ASCII alphanumerics and spaces, no double spaces, no trailing space. -/
def SimpleCleanText (s : String) : Prop :=
  3 ≤ s.data.length ∧ headIsUD s.data = true ∧
    s.data.all (fun c => decide (c ∈ plainChars)) = true ∧
    noTwoSpaces s.data = true ∧ lastNotSpace s.data = true

instance (s : String) : Decidable (SimpleCleanText s) := by
  unfold SimpleCleanText; infer_instance

/-- The character-level facts about simple clean characters that the stage
lemmas use. -/
theorem plain_fact : ∀ c ∈ plainChars,
    c ≠ '`' ∧ c.toLower ≠ '`' ∧ c ≠ '\\' ∧ c ≠ ':' ∧ c ≠ '"' ∧ c ≠ '\'' ∧
    c ≠ ',' ∧ c ≠ '\x7b' ∧ c ≠ '\x7d' ∧ c ≠ '[' ∧ c ≠ ']' ∧
    (isJsWs c = true → c = ' ') := by
  decide

/-- The facts about allowed first characters. -/
theorem ud_fact : ∀ c ∈ udChars,
    c ∈ plainChars ∧ isJsWs c = false ∧ isAsciiAlnum c = true ∧
    isWordChar c = true ∧ ¬('a' ≤ c ∧ c ≤ 'z') ∧ c ≠ ' ' := by
  decide

/-- `scrubTag` fixes lists containing no backtick-alikes (both tags of the
cleaner start with a backtick, which no plain character matches even
case-insensitively). -/
theorem scrubTag_id (ci : Bool) (rest : List Char) :
    ∀ (fuel : ℕ) (l : List Char), (∀ c ∈ l, c ∈ plainChars) →
      scrubTag ('`' :: rest) ci fuel l = l := by
  intro fuel
  induction fuel with
  | zero => intro l _; rfl
  | succ n ih =>
    intro l hl
    cases l with
    | nil => rfl
    | cons c cs =>
      obtain ⟨h1, h2, -⟩ := plain_fact c (hl c (by simp))
      have hcmp : (if ci then ('`'.toLower == c.toLower) else ('`' == c)) =
          false := by
        cases ci with
        | false =>
          exact beq_eq_false_iff_ne.mpr (Ne.symm h1)
        | true =>
          show ('`'.toLower == c.toLower) = false
          exact beq_eq_false_iff_ne.mpr (Ne.symm h2)
      have hlead : tagLeads ci ('`' :: rest) (c :: cs) = false := by
        rw [tagLeads, hcmp, Bool.false_and]
      rw [scrubTag, hlead]
      simp only [Bool.false_eq_true, if_false, List.cons.injEq, true_and]
      exact ih cs (fun x hx => hl x (by simp [hx]))

/-- `replaceLit` fixes lists containing no backslash (all five unescape
patterns of the cleaner start with one). -/
theorem replaceLit_id (rest rep : List Char) :
    ∀ (fuel : ℕ) (l : List Char), (∀ c ∈ l, c ∈ plainChars) →
      replaceLit ('\\' :: rest) rep fuel l = l := by
  intro fuel
  induction fuel with
  | zero => intro l _; rfl
  | succ n ih =>
    intro l hl
    cases l with
    | nil => rfl
    | cons c cs =>
      obtain ⟨-, -, h3, -⟩ := plain_fact c (hl c (by simp))
      have hlead : leadsWith ('\\' :: rest) (c :: cs) = false := by
        unfold leadsWith
        simp [h3.symm]
      rw [replaceLit, hlead]
      simp only [Bool.false_eq_true, if_false, List.cons.injEq, true_and]
      exact ih cs (fun x hx => hl x (by simp [hx]))

/-- `removeQuotedKeys` fixes quote-free lists. -/
theorem removeQuotedKeys_id :
    ∀ (fuel : ℕ) (l : List Char), (∀ c ∈ l, c ∈ plainChars) →
      removeQuotedKeys fuel l = l := by
  intro fuel
  induction fuel with
  | zero => intro l _; rfl
  | succ n ih =>
    intro l hl
    cases l with
    | nil => rfl
    | cons c cs =>
      obtain ⟨-, -, -, -, h5, -⟩ := plain_fact c (hl c (by simp))
      rw [removeQuotedKeys, if_neg h5]
      exact congrArg (c :: ·) (ih cs (fun x hx => hl x (by simp [hx])))

/-- `collapseWs` fixes plain lists with no double spaces. -/
theorem collapseWs_id :
    ∀ (fuel : ℕ) (l : List Char), (∀ c ∈ l, c ∈ plainChars) →
      noTwoSpaces l = true → collapseWs fuel l = l := by
  intro fuel
  induction fuel with
  | zero => intro l _ _; rfl
  | succ n ih =>
    intro l hl hs
    cases l with
    | nil => rfl
    | cons c cs =>
      have htail : noTwoSpaces cs = true := by
        cases cs with
        | nil => rfl
        | cons d ds =>
          have := hs
          unfold noTwoSpaces at this
          exact (Bool.and_eq_true_iff.mp this).2
      by_cases hw : isJsWs c = true
      · have hcsp : c = ' ' :=
          (plain_fact c (hl c (by simp))).2.2.2.2.2.2.2.2.2.2.2 hw
        have hdrop : cs.dropWhile isJsWs = cs := by
          cases cs with
          | nil => rfl
          | cons d ds =>
            have hd : ¬ (d = ' ') := by
              subst hcsp
              unfold noTwoSpaces at hs
              have := (Bool.and_eq_true_iff.mp hs).1
              simpa using this
            have hdw : isJsWs d = false := by
              rcases Bool.eq_false_or_eq_true (isJsWs d) with h | h
              · exact absurd
                  ((plain_fact d (hl d (by simp))).2.2.2.2.2.2.2.2.2.2.2 h) hd
              · exact h
            simp [List.dropWhile_cons, hdw]
        rw [collapseWs, if_pos hw, hdrop, hcsp]
        exact congrArg (' ' :: ·) (ih cs (fun x hx => hl x (by simp [hx])) htail)
      · rw [collapseWs, if_neg hw]
        exact congrArg (c :: ·) (ih cs (fun x hx => hl x (by simp [hx])) htail)

/-- `stripTrailingQuoteComma.cutFrom` finds nothing in a quote-free
list. -/
theorem cutFrom_none :
    ∀ l : List Char, (∀ c ∈ l, c ∈ plainChars) →
      stripTrailingQuoteComma.cutFrom l = none := by
  intro l
  induction l with
  | nil => intro _; rfl
  | cons c cs ih =>
    intro hl
    obtain ⟨-, -, -, -, h5, -⟩ := plain_fact c (hl c (by simp))
    unfold stripTrailingQuoteComma.cutFrom
    rw [if_neg (by exact fun h => h5 h.1)]
    rw [ih (fun x hx => hl x (by simp [hx]))]
    rfl

/-- `stripTrailingQuoteComma` fixes quote-free lists. -/
theorem stripTrailingQuoteComma_id (l : List Char)
    (hl : ∀ c ∈ l, c ∈ plainChars) : stripTrailingQuoteComma l = l := by
  unfold stripTrailingQuoteComma
  rw [cutFrom_none l hl]

/-- `dropWhile` fixes a list whose first element fails the predicate. -/
theorem dropWhile_id_of_head {p : Char → Bool} (l : List Char)
    (h : ∀ c, l.head? = some c → p c = false) : l.dropWhile p = l := by
  cases l with
  | nil => rfl
  | cons c cs => rw [List.dropWhile_cons, h c rfl]; simp

/-- The quoted-key object-wrapper pattern (line 85) cannot match text whose
first character is neither whitespace nor an opening brace. -/
theorem jsonWrapperKeyed_none (c : Char) (cs : List Char)
    (hw : isJsWs c = false) (hb : c ≠ '\x7b') :
    jsonWrapperKeyed (c :: cs) = none := by
  unfold jsonWrapperKeyed
  rw [dropWhile_id_of_head _ (fun d hd => by cases hd; exact hw)]
  simp [expectCh, hb]

/-- The bare object-wrapper pattern (line 86), likewise. -/
theorem jsonWrapperBare_none (c : Char) (cs : List Char)
    (hw : isJsWs c = false) (hb : c ≠ '\x7b') :
    jsonWrapperBare (c :: cs) = none := by
  unfold jsonWrapperBare
  rw [dropWhile_id_of_head _ (fun d hd => by cases hd; exact hw)]
  simp [expectCh, hb]

/-- The array-wrapper pattern (line 87), likewise for `[`. -/
theorem arrayWrapper_none (c : Char) (cs : List Char)
    (hw : isJsWs c = false) (hb : c ≠ '[') :
    arrayWrapper (c :: cs) = none := by
  unfold arrayWrapper
  rw [dropWhile_id_of_head _ (fun d hd => by cases hd; exact hw)]
  simp [expectCh, hb]

/-- Both key-colon patterns (lines 90-91) need a colon. -/
theorem keyColonQuoted_none (l : List Char) (h : ∀ c ∈ l, c ≠ ':') :
    keyColonQuoted l = none := by
  unfold keyColonQuoted
  rw [List.dropWhile_eq_nil_iff.mpr (fun x hx => decide_eq_true (h x hx))]
  rfl

/-- The bare key-colon pattern (line 91), likewise. -/
theorem keyColonBare_none (l : List Char) (h : ∀ c ∈ l, c ≠ ':') :
    keyColonBare l = none := by
  unfold keyColonBare
  rw [List.dropWhile_eq_nil_iff.mpr (fun x hx => decide_eq_true (h x hx))]
  rfl

/-- The edge-quote stripper (line 94) fixes quote-free text. -/
theorem stripEdgeQuotes_id (l : List Char)
    (h : ∀ c ∈ l, c ≠ '"' ∧ c ≠ '\'') : stripEdgeQuotes l = l := by
  unfold stripEdgeQuotes
  cases l with
  | nil => rfl
  | cons c cs =>
    dsimp only
    rw [if_neg (by rintro (hq | hq) <;>
      [exact (h c (by simp)).1 hq; exact (h c (by simp)).2 hq])]
    rcases hgl : (c :: cs).getLast? with _ | d
    · rfl
    · have hd : d ∈ c :: cs :=
        List.mem_of_mem_getLast? (by rw [hgl]; rfl)
      dsimp only
      rw [if_neg (by rintro (hq | hq) <;>
        [exact (h d hd).1 hq; exact (h d hd).2 hq])]

/-- The trailing-comma stripper (line 104) fixes comma-free text. -/
theorem stripTrailingComma_id (l : List Char) (h : ∀ c ∈ l, c ≠ ',') :
    stripTrailingComma l = l := by
  unfold stripTrailingComma
  dsimp only
  split
  · next heq =>
    exfalso
    have hmem : ',' ∈ (l.reverse.dropWhile isJsWs).reverse :=
      List.mem_of_mem_getLast? (by rw [heq]; rfl)
    rw [List.mem_reverse] at hmem
    have : ',' ∈ l.reverse := (List.dropWhile_sublist isJsWs).subset hmem
    rw [List.mem_reverse] at this
    exact h ',' this rfl
  · rfl

/-- The leading-comma stripper (line 105) fixes text that starts with a
non-whitespace, non-comma character. -/
theorem stripLeadingComma_id (c : Char) (cs : List Char)
    (hw : isJsWs c = false) (hc : c ≠ ',') :
    stripLeadingComma (c :: cs) = c :: cs := by
  unfold stripLeadingComma
  rw [dropWhile_id_of_head _ (fun d hd => by cases hd; exact hw)]
  split
  · next heq => exact absurd (List.cons.inj heq).1 hc
  · rfl

/-- The key-value head strippers (lines 109-110) need a leading quote. -/
theorem stripKeyValHead_none (key : List Char) (c : Char) (cs : List Char)
    (h : c ≠ '"') : stripKeyValHead key (c :: cs) = none := by
  unfold stripKeyValHead
  simp [expectCh, h]

/-- The quoted-key extractors (lines 111-112) need a leading quote. -/
theorem extractKeyQuoted_none (key : List Char) (c : Char) (cs : List Char)
    (h : c ≠ '"') : extractKeyQuoted key (c :: cs) = none := by
  unfold extractKeyQuoted
  simp [expectCh, h]

/-- `trimJsWs` fixes text with no whitespace at either end. -/
theorem trimJsWs_id (l : List Char)
    (hh : ∀ c, l.head? = some c → isJsWs c = false)
    (hl : ∀ c, l.getLast? = some c → isJsWs c = false) :
    trimJsWs l = l := by
  unfold trimJsWs
  rw [dropWhile_id_of_head _ hh]
  rw [dropWhile_id_of_head _ (fun c hc => hl c (by rwa [List.head?_reverse] at hc))]
  exact List.reverse_reverse l

/-- C9 (amended): the text cleaner is the identity on simple clean text —
at least 3 characters, ASCII alphanumerics and single interior spaces, not
starting or ending with a space, first character an uppercase letter or a
digit.  (It is NOT idempotent on arbitrary outputs of its own; see the
counterexample.) -/
theorem cleanText_id_on_simple (s : String) (h : SimpleCleanText s) :
    AIResponseParserService.cleanText (some s) = s := by
  obtain ⟨hlen, hhead, hall, hnosp, hlast⟩ := h
  obtain ⟨c, cs, hl⟩ : ∃ c cs, s.data = c :: cs := by
    cases hsd : s.data with
    | nil => rw [hsd] at hlen; simp at hlen
    | cons c cs => exact ⟨c, cs, rfl⟩
  have hplain : ∀ x ∈ s.data, x ∈ plainChars := by
    intro x hx
    exact of_decide_eq_true (List.all_eq_true.mp hall x hx)
  have hcud : c ∈ udChars := by
    rw [hl] at hhead
    simpa [headIsUD] using hhead
  obtain ⟨hcplain, hcws, hcal, hcword, hclow, hcsp⟩ := ud_fact c hcud
  have hne : ¬ (s = "") := by
    intro he
    rw [he] at hl
    cases hl
  have hheadfacts : ∀ x, s.data.head? = some x →
      x ∈ plainChars ∧ isJsWs x = false ∧ isAsciiAlnum x = true := by
    intro x hx
    rw [hl] at hx
    cases hx
    exact ⟨hcplain, hcws, hcal⟩
  have hlastws : ∀ x, s.data.getLast? = some x → isJsWs x = false := by
    intro x hx
    have hxl : x ∈ s.data := List.mem_of_mem_getLast? (by rw [hx]; rfl)
    have hxsp : x ≠ ' ' := by
      unfold lastNotSpace at hlast
      rw [hx] at hlast
      simpa using hlast
    rcases Bool.eq_false_or_eq_true (isJsWs x) with hb | hb
    · exact absurd
        ((plain_fact x (hplain x hxl)).2.2.2.2.2.2.2.2.2.2.2 hb) hxsp
    · exact hb
  unfold AIResponseParserService.cleanText
  dsimp only
  rw [if_neg hne]
  have e1 : scrubTag "```json".data true (s.data.length + 1) s.data =
      s.data := scrubTag_id true _ _ _ hplain
  have e2 : scrubTag "```".data false (s.data.length + 1) s.data =
      s.data := scrubTag_id false _ _ _ hplain
  have e3 : applyOpt jsonWrapperKeyed s.data = s.data := by
    unfold applyOpt
    rw [hl, jsonWrapperKeyed_none c cs hcws (plain_fact c hcplain).2.2.2.2.2.2.2.1]
    rfl
  have e4 : applyOpt jsonWrapperBare s.data = s.data := by
    unfold applyOpt
    rw [hl, jsonWrapperBare_none c cs hcws (plain_fact c hcplain).2.2.2.2.2.2.2.1]
    rfl
  have e5 : applyOpt arrayWrapper s.data = s.data := by
    unfold applyOpt
    rw [hl, arrayWrapper_none c cs hcws (plain_fact c hcplain).2.2.2.2.2.2.2.2.2.1]
    rfl
  have hnocolon : ∀ x ∈ s.data, x ≠ ':' :=
    fun x hx => (plain_fact x (hplain x hx)).2.2.2.1
  have e6 : applyOpt keyColonQuoted s.data = s.data := by
    unfold applyOpt
    rw [keyColonQuoted_none _ hnocolon]
    rfl
  have e7 : applyOpt keyColonBare s.data = s.data := by
    unfold applyOpt
    rw [keyColonBare_none _ hnocolon]
    rfl
  have e8 : stripEdgeQuotes s.data = s.data :=
    stripEdgeQuotes_id _ (fun x hx =>
      ⟨(plain_fact x (hplain x hx)).2.2.2.2.1,
       (plain_fact x (hplain x hx)).2.2.2.2.2.1⟩)
  have e9 : ∀ rest rep, replaceLit ('\\' :: rest) rep (s.data.length + 1)
      s.data = s.data := fun rest rep => replaceLit_id rest rep _ _ hplain
  have e14 : stripTrailingComma s.data = s.data :=
    stripTrailingComma_id _ (fun x hx =>
      (plain_fact x (hplain x hx)).2.2.2.2.2.2.1)
  have e15 : stripLeadingComma s.data = s.data := by
    rw [hl]
    exact stripLeadingComma_id c cs hcws (plain_fact c hcplain).2.2.2.2.2.2.1
  have e16 : s.data.filter
      (fun c => !(c = '\x7b' || c = '\x7d' || c = '[' || c = ']')) =
      s.data := by
    rw [List.filter_eq_self]
    intro x hx
    obtain ⟨-, -, -, -, -, -, -, b1, b2, b3, b4, -⟩ :=
      plain_fact x (hplain x hx)
    simp [b1, b2, b3, b4]
  have e17 : ∀ key, applyOpt (stripKeyValHead key) s.data = s.data := by
    intro key
    unfold applyOpt
    rw [hl, stripKeyValHead_none key c cs (plain_fact c hcplain).2.2.2.2.1]
    rfl
  have e19 : ∀ key, applyOpt (extractKeyQuoted key) s.data = s.data := by
    intro key
    unfold applyOpt
    rw [hl, extractKeyQuoted_none key c cs (plain_fact c hcplain).2.2.2.2.1]
    rfl
  have e21 : removeQuotedKeys (s.data.length + 1) s.data = s.data :=
    removeQuotedKeys_id _ _ hplain
  have e22 : stripTrailingQuoteComma s.data = s.data :=
    stripTrailingQuoteComma_id _ hplain
  have e23 : s.data.dropWhile (fun c => !isAsciiAlnum c) = s.data :=
    dropWhile_id_of_head _ (fun x hx => by
      rw [(hheadfacts x hx).2.2]; rfl)
  have e24 : collapseWs (s.data.length + 1) s.data = s.data :=
    collapseWs_id _ _ hplain hnosp
  have e25 : trimJsWs s.data = s.data :=
    trimJsWs_id _ (fun x hx => (hheadfacts x hx).2.1) hlastws
  simp only [e1, e2, e3, e4, e5, e6, e7, e8, e9, e14, e15, e16, e17, e19,
    e21, e22, e23, e24, e25]
  have hcond : ¬ (s.data.isEmpty = true ∨ s.data.length < 3 ∨
      s.data.all (fun c => !isWordChar c) = true) := by
    rw [hl] at hlen ⊢
    push_neg
    refine ⟨by simp, by omega, by simp [List.all_cons, hcword]⟩
  rw [if_neg hcond]
  have hcap : capitalizeFirst s.data = s.data := by
    rw [hl]
    unfold capitalizeFirst
    dsimp only
    rw [if_neg hclow]
  rw [hcap]

/-- Witness for C9's amended theorem at `"Hello world"`. -/
theorem cleanText_id_on_simple_witness :
    SimpleCleanText "Hello world" ∧
    AIResponseParserService.cleanText (some "Hello world") = "Hello world" :=
  ⟨by decide, cleanText_id_on_simple "Hello world" (by decide)⟩

/-- C9 counterexample: `cleanText "a: b: c" = "B: c"` (line 91's key-colon
rule keeps everything after the first colon), but applying `cleanText` to
that output again yields `""` (the same rule now strips `"B:"`, and the
remaining `"c"` is shorter than 3 characters) — so the cleaner is not
idempotent on its own output. -/
theorem cleanText_not_idempotent :
    AIResponseParserService.cleanText (some "a: b: c") = "B: c" ∧
    AIResponseParserService.cleanText
      (some (AIResponseParserService.cleanText (some "a: b: c"))) = "" ∧
    ("" : String) ≠ "B: c" := by
  refine ⟨rfl, rfl, by decide⟩

/-! ## Color extraction (src/services/color-extraction.ts)

The float arithmetic of this module (`Math.pow(·, 2.4)` in the luminance
formula, `Math.sqrt` in the colour distance) is modelled exactly over `ℝ`,
which makes the definitions noncomputable; theorems about them reason
symbolically instead of by evaluation.  The image-resize and pixel-decode
steps of `extractColorPalette` are environmental (the source's
`extractPixelData` in fact fabricates samples via
`simulatePixelExtraction`, ignoring the image); the pure pipeline from
pixel samples to palette is embedded as `extractColorPaletteFromPixels`. -/

/-- One `[r, g, b]` pixel sample (a JS `number[]` triple). -/
abbrev Pixel := ℤ × ℤ × ℤ

/-- `ColorExtractionOptions` (src/types/ai-analysis.ts lines 80-85). -/
structure ColorExtractionOptions where
  maxColors : ℕ
  quality : ℕ
  ignoreWhite : Bool
  ignoreBlack : Bool
  deriving DecidableEq, Repr

/-- The four moods of `ColorPalette.mood`
(src/types/ai-analysis.ts line 31). -/
inductive Mood
  | focus
  | creativity
  | calm
  | energizing
  deriving DecidableEq, Repr

/-- `ColorPalette` (src/types/ai-analysis.ts lines 27-33); the
timestamp-based `id` is environmental and omitted. -/
structure ColorPalette where
  name : String
  colors : List String
  mood : Mood
  description : String
  deriving DecidableEq, Repr

/-- `ExtractedColor` (src/types/ai-analysis.ts lines 87-92). -/
structure ExtractedColor where
  hex : String
  rgb : Pixel
  frequency : ℚ
  luminance : ℝ

namespace ColorExtractionService

/-- `DEFAULT_OPTIONS` (src/services/color-extraction.ts lines 9-14). -/
def DEFAULT_OPTIONS : ColorExtractionOptions :=
  { maxColors := 6, quality := 10, ignoreWhite := true, ignoreBlack := true }

/-- Linearization of one sRGB channel inside `calculateLuminance`
(src/services/color-extraction.ts lines 225-228). -/
noncomputable def linearizeChannel (c : ℤ) : ℝ :=
  let x : ℝ := (c : ℝ) / 255
  if x ≤ 0.03928 then x / 12.92 else ((x + 0.055) / 1.055) ^ (2.4 : ℝ)

/-- `calculateLuminance` (src/services/color-extraction.ts lines 223-231). -/
noncomputable def calculateLuminance (r g b : ℤ) : ℝ :=
  0.2126 * linearizeChannel r + 0.7152 * linearizeChannel g +
    0.0722 * linearizeChannel b

/-- `calculateColorDistance` (src/services/color-extraction.ts lines
192-201). -/
noncomputable def calculateColorDistance (c1 c2 : Pixel) : ℝ :=
  Real.sqrt (((c2.1 - c1.1 : ℤ) : ℝ) ^ 2 + ((c2.2.1 - c1.2.1 : ℤ) : ℝ) ^ 2 +
    ((c2.2.2 - c1.2.2 : ℤ) : ℝ) ^ 2)

/-- `calculateAverageColor` (src/services/color-extraction.ts lines
206-218): componentwise sum, divide by the count, `Math.round` each
channel.  Only ever called on non-empty groups. -/
def calculateAverageColor (pixels : List Pixel) : Pixel :=
  let sum := pixels.foldl
    (fun acc p => (acc.1 + p.1, acc.2.1 + p.2.1, acc.2.2 + p.2.2))
    ((0, 0, 0) : Pixel)
  let count := pixels.length
  (jsRound ((sum.1 : ℚ) / count), jsRound ((sum.2.1 : ℚ) / count),
    jsRound ((sum.2.2 : ℚ) / count))

/-- One entry of the `groups` array in `groupSimilarColors`. -/
structure ColorGroup where
  pixels : List Pixel
  centroid : Pixel

/-- Inner loop of `groupSimilarColors` (src/services/color-extraction.ts
lines 165-184): find the FIRST group whose centroid is within distance 30,
append the pixel to it and recompute its centroid as the running average;
if none matches, start a new group whose centroid is the pixel itself. -/
noncomputable def placePixel (p : Pixel) : List ColorGroup → List ColorGroup
  | [] => [{ pixels := [p], centroid := p }]
  | g :: gs =>
    if calculateColorDistance p g.centroid < 30 then
      { pixels := g.pixels ++ [p]
        centroid := calculateAverageColor (g.pixels ++ [p]) } :: gs
    else g :: placePixel p gs

/-- `groupSimilarColors` (src/services/color-extraction.ts lines
161-187). -/
noncomputable def groupSimilarColors (pixels : List Pixel) : List ColorGroup :=
  pixels.foldl (fun groups p => placePixel p groups) []

/-- One uppercase hex digit. -/
def hexDigitU (n : ℕ) : Char := "0123456789ABCDEF".data.getD n '0'

/-- The per-channel body of `rgbToHex` (src/services/color-extraction.ts
lines 236-241): `Math.round(x).toString(16)` left-padded with `'0'` to two
digits, uppercased.  Channels here are integers in 0..255 (rounded
averages of 0..255 samples), for which this is exact. -/
def toHexComponent (x : ℤ) : String :=
  let n := x.toNat
  if n < 16 then ⟨['0', hexDigitU n]⟩
  else ⟨[hexDigitU (n / 16), hexDigitU (n % 16)]⟩

/-- `rgbToHex` (src/services/color-extraction.ts lines 236-241). -/
def rgbToHex (r g b : ℤ) : String :=
  "#" ++ toHexComponent r ++ toHexComponent g ++ toHexComponent b

/-- The pixel filter of `extractDominantColors` (src/services/
color-extraction.ts lines 126-134): drop near-white samples when
`ignoreWhite` (luminance > 0.9) and near-black ones when `ignoreBlack`
(luminance < 0.1). -/
noncomputable def survivesFilter (options : ColorExtractionOptions)
    (p : Pixel) : Bool :=
  let luminance := calculateLuminance p.1 p.2.1 p.2.2
  if options.ignoreWhite && decide (luminance > 0.9) then false
  else if options.ignoreBlack && decide (luminance < 0.1) then false
  else true

/-- `extractDominantColors` (src/services/color-extraction.ts lines
121-156): filter the samples, cluster greedily, keep the `maxColors` most
populous clusters (modern JS `Array.sort` is stable, as is the insertion
sort used here), and convert each to an `ExtractedColor`. -/
noncomputable def extractDominantColors (pixels : List Pixel)
    (options : ColorExtractionOptions) : List ExtractedColor :=
  let filteredPixels := pixels.filter (survivesFilter options)
  let colorGroups := groupSimilarColors filteredPixels
  let sortedGroups := (colorGroups.insertionSort
    (fun a b => b.pixels.length ≤ a.pixels.length)).take options.maxColors
  sortedGroups.map (fun group =>
    let avgColor := calculateAverageColor group.pixels
    { hex := rgbToHex avgColor.1 avgColor.2.1 avgColor.2.2
      rgb := avgColor
      frequency := (group.pixels.length : ℚ) / filteredPixels.length
      luminance := calculateLuminance avgColor.1 avgColor.2.1 avgColor.2.2 })

/-- Warm-versus-cool vote of one cluster inside `determineMood`
(src/services/color-extraction.ts lines 258-260): warm iff `r > b`. -/
def warmOf (c : ExtractedColor) : Bool := c.rgb.1 > c.rgb.2.2

/-- Saturation of one cluster inside `determineMood` (src/services/
color-extraction.ts lines 262-265): `(max − min) / max` over RGB, with 0
for pure black. -/
def satOf (c : ExtractedColor) : ℚ :=
  let mx := max c.rgb.1 (max c.rgb.2.1 c.rgb.2.2)
  let mn := min c.rgb.1 (min c.rgb.2.1 c.rgb.2.2)
  if mx = 0 then 0 else ((mx - mn : ℤ) : ℚ) / (mx : ℚ)

/-- The `forEach` accumulator step of `determineMood` (src/services/
color-extraction.ts lines 255-269): `(warmColors, coolColors,
totalSaturation, totalLuminance)`. -/
noncomputable def moodStep (st : ℕ × ℕ × ℚ × ℝ) (c : ExtractedColor) :
    ℕ × ℕ × ℚ × ℝ :=
  ((if warmOf c then st.1 + 1 else st.1),
   (if warmOf c then st.2.1 else st.2.1 + 1),
   st.2.2.1 + satOf c,
   st.2.2.2 + c.luminance)

/-- `determineMood` (src/services/color-extraction.ts lines 246-285).
Decimal literals are modelled as exact rationals; both this and the
spec-side definition use the identical thresholds, so their comparison is
unaffected by binary64 rounding of the literals. -/
noncomputable def determineMood (colors : List ExtractedColor) : Mood :=
  if colors.length = 0 then .focus
  else
    let acc := colors.foldl moodStep (0, 0, 0, 0)
    let avgSaturation : ℚ := acc.2.2.1 / colors.length
    let avgLuminance : ℝ := acc.2.2.2 / colors.length
    let isWarm := acc.1 > acc.2.1
    if avgSaturation > 3/5 ∧ avgLuminance > 1/2 then .energizing
    else if avgSaturation > 2/5 ∧ isWarm then .creativity
    else if avgLuminance < 3/10 ∨ avgSaturation < 1/5 then .focus
    else .calm

/-- Claim C8's reading of the spec's mood rule (spec §4.3 step 5),
written independently of the source's `forEach` accumulation: average the
per-cluster saturations and luminances, count warm and cool clusters, then
decide energizing / creativity / focus / calm in the spec's order (an
empty list yields focus). -/
noncomputable def determineMoodSpec (colors : List ExtractedColor) : Mood :=
  if colors.length = 0 then .focus
  else
    let avgSaturation : ℚ := (colors.map satOf).sum / colors.length
    let avgLuminance : ℝ := (colors.map (fun c => c.luminance)).sum / colors.length
    let warmCount := colors.countP warmOf
    let coolCount := colors.countP (fun c => ! warmOf c)
    if avgSaturation > 3/5 ∧ avgLuminance > 1/2 then .energizing
    else if avgSaturation > 2/5 ∧ warmCount > coolCount then .creativity
    else if avgLuminance < 3/10 ∨ avgSaturation < 1/5 then .focus
    else .calm

/-- `generateDescription` (src/services/color-extraction.ts lines
290-302); its `avgLuminance` local is computed but unused. -/
def generateDescription (colors : List ExtractedColor) (mood : Mood) : String :=
  let colorCount := colors.length
  match mood with
  | .focus => "Neutral color scheme with " ++ toString colorCount ++
      " balanced tones that promote concentration and minimize distractions"
  | .creativity => "Inspiring palette of " ++ toString colorCount ++
      " warm colors that stimulate creative thinking and innovation"
  | .calm => "Soothing combination of " ++ toString colorCount ++
      " gentle colors that create a peaceful and relaxing atmosphere"
  | .energizing => "Vibrant selection of " ++ toString colorCount ++
      " bright colors that boost energy and motivation"

/-- `createFallbackPalette` (src/services/color-extraction.ts lines
307-315). -/
def createFallbackPalette : ColorPalette :=
  { name := "Neutral Workspace"
    colors := ["#F5F5F0", "#E8E4DD", "#D4CFC4", "#A8A39A"]
    mood := .focus
    description := "A calming neutral palette perfect for focused work sessions" }

/-- The pure pipeline of `extractColorPalette` (src/services/
color-extraction.ts lines 19-56) from pixel samples to the palette (steps
3-6 of the `try` block).  The fallback palette is returned only when one
of the environmental steps 1-2 (image resize / pixel decode) throws; steps
3-6 cannot throw, so this function IS the palette for whatever samples
step 2 produced. -/
noncomputable def extractColorPaletteFromPixels (pixels : List Pixel)
    (options : ColorExtractionOptions) : ColorPalette :=
  let dominantColors := extractDominantColors pixels options
  let hexColors := dominantColors.map (fun c => c.hex)
  let mood := determineMood dominantColors
  let description := generateDescription dominantColors mood
  { name := "Workspace Colors"
    colors := hexColors
    mood := mood
    description := description }

/-- Unrolling the `forEach` accumulator of `determineMood`: the four
components are the warm count, the cool count, the saturation total and
the luminance total. -/
theorem moodFold (l : List ExtractedColor) : ∀ st : ℕ × ℕ × ℚ × ℝ,
    l.foldl moodStep st =
      (st.1 + l.countP warmOf,
       st.2.1 + l.countP (fun c => ! warmOf c),
       st.2.2.1 + (l.map satOf).sum,
       st.2.2.2 + (l.map (fun c => c.luminance)).sum) := by
  induction l with
  | nil => intro st; simp
  | cons c l ih =>
    intro st
    rw [List.foldl_cons, ih]
    cases hw : warmOf c <;>
      simp [moodStep, hw, List.countP_cons] <;>
      ring_nf <;>
      exact ⟨trivial, trivial, trivial⟩

/-- The zero-cluster output shape of the palette pipeline (empty colors,
mood `focus`, zero-count description): shared by the C5 theorems. -/
theorem palette_of_no_survivors (pixels : List Pixel)
    (options : ColorExtractionOptions)
    (h : pixels.filter (survivesFilter options) = []) :
    extractColorPaletteFromPixels pixels options =
      { name := "Workspace Colors"
        colors := []
        mood := .focus
        description := "Neutral color scheme with 0 balanced tones that promote concentration and minimize distractions" } := by
  have hdom : extractDominantColors pixels options = [] := by
    unfold extractDominantColors
    rw [h]
    simp [groupSimilarColors]
  unfold extractColorPaletteFromPixels
  rw [hdom]
  rfl

/-- Pure white has relative luminance exactly 1. -/
theorem calculateLuminance_white : calculateLuminance 255 255 255 = 1 := by
  unfold calculateLuminance linearizeChannel
  have h255 : ((255 : ℤ) : ℝ) / 255 = 1 := by norm_num
  rw [h255]
  rw [if_neg (by norm_num)]
  have h1 : ((1 : ℝ) + 0.055) / 1.055 = 1 := by norm_num
  rw [h1, Real.one_rpow]
  norm_num

/-- A pure-white sample is removed by the filter when `ignoreWhite`. -/
theorem white_does_not_survive :
    survivesFilter ⟨5, 10, true, true⟩ ((255 : ℤ), (255 : ℤ), (255 : ℤ)) = false := by
  unfold survivesFilter
  have hl : calculateLuminance 255 255 255 = 1 := calculateLuminance_white
  simp only [hl]
  rw [decide_eq_true (show (1 : ℝ) > 0.9 by norm_num)]
  simp

/-- All-white samples are all filtered out. -/
theorem white_pixels_filtered :
    ([((255 : ℤ), (255 : ℤ), (255 : ℤ))].filter
      (survivesFilter ⟨5, 10, true, true⟩)) = [] := by
  simp [List.filter, white_does_not_survive]

end ColorExtractionService

/-- C5 counterexample: with 100% pure-white samples and `ignoreWhite`
(the orchestrator's options), zero clusters survive, and
`extractColorPalette` returns a palette whose `colors` array is EMPTY —
not the fixed 4-color fallback palette, which is reserved for thrown
(environmental) failures. -/
theorem extractColorPalette_zero_clusters_cex :
    ([((255 : ℤ), (255 : ℤ), (255 : ℤ))].filter
      (ColorExtractionService.survivesFilter ⟨5, 10, true, true⟩)) = [] ∧
    (ColorExtractionService.extractColorPaletteFromPixels
      [(255, 255, 255)] ⟨5, 10, true, true⟩).colors = [] ∧
    ColorExtractionService.extractColorPaletteFromPixels
      [(255, 255, 255)] ⟨5, 10, true, true⟩ ≠
      ColorExtractionService.createFallbackPalette := by
  have hf := ColorExtractionService.white_pixels_filtered
  have hp := ColorExtractionService.palette_of_no_survivors _ _ hf
  refine ⟨hf, by rw [hp], ?_⟩
  rw [hp]
  intro hc
  exact absurd (congrArg ColorPalette.colors hc)
    (by simp [ColorExtractionService.createFallbackPalette])

/-- C5 (amended): whenever zero pixel samples survive the white/black
filter, `extractColorPalette`'s pure pipeline returns a palette with an
EMPTY colors list, mood `focus` and a zero-count description — not the
fixed fallback palette, which only a thrown environmental failure (image
resize / decode) produces. -/
theorem extractColorPalette_zero_clusters (pixels : List Pixel)
    (options : ColorExtractionOptions)
    (h : pixels.filter (ColorExtractionService.survivesFilter options) = []) :
    ColorExtractionService.extractColorPaletteFromPixels pixels options =
      { name := "Workspace Colors"
        colors := []
        mood := .focus
        description := "Neutral color scheme with 0 balanced tones that promote concentration and minimize distractions" } ∧
    ColorExtractionService.extractColorPaletteFromPixels pixels options ≠
      ColorExtractionService.createFallbackPalette := by
  have hp := ColorExtractionService.palette_of_no_survivors pixels options h
  refine ⟨hp, ?_⟩
  rw [hp]
  intro hc
  exact absurd (congrArg ColorPalette.colors hc)
    (by simp [ColorExtractionService.createFallbackPalette])

/-- Witness for C5's amended theorem at the all-white sample list. -/
theorem extractColorPalette_zero_clusters_witness :
    ([((255 : ℤ), (255 : ℤ), (255 : ℤ))].filter
      (ColorExtractionService.survivesFilter ⟨5, 10, true, true⟩)) = [] ∧
    (ColorExtractionService.extractColorPaletteFromPixels
        [(255, 255, 255)] ⟨5, 10, true, true⟩ =
      { name := "Workspace Colors"
        colors := []
        mood := .focus
        description := "Neutral color scheme with 0 balanced tones that promote concentration and minimize distractions" } ∧
     ColorExtractionService.extractColorPaletteFromPixels
        [(255, 255, 255)] ⟨5, 10, true, true⟩ ≠
       ColorExtractionService.createFallbackPalette) :=
  ⟨ColorExtractionService.white_pixels_filtered,
    extractColorPalette_zero_clusters _ _
      ColorExtractionService.white_pixels_filtered⟩

/-- C8: `determineMood` agrees everywhere with the spec's decision rule
(energizing if avg saturation > 0.6 and avg luminance > 0.5; else
creativity if avg saturation > 0.4 and warm clusters outnumber cool ones;
else focus if avg luminance < 0.3 or avg saturation < 0.2; else calm), and
so always returns one of the four moods; the empty cluster list yields
`focus`. -/
theorem determineMood_matches_spec :
    (∀ colors : List ExtractedColor,
      ColorExtractionService.determineMood colors =
        ColorExtractionService.determineMoodSpec colors) ∧
    ColorExtractionService.determineMood [] = Mood.focus := by
  constructor
  · intro colors
    unfold ColorExtractionService.determineMood
      ColorExtractionService.determineMoodSpec
    by_cases h : colors.length = 0
    · simp [h]
    · simp only [h, if_false]
      rw [ColorExtractionService.moodFold colors (0, 0, 0, 0)]
      simp
  · rfl

/-- `jsRound` of a non-negative rational is non-negative. -/
theorem jsRound_nonneg {q : ℚ} (hq : 0 ≤ q) : 0 ≤ jsRound q := by
  unfold jsRound
  have : (0 : ℚ) ≤ q + 1/2 := by linarith
  exact Int.le_floor.mpr (by exact_mod_cast this)

/-- The budget multiplier is never negative. -/
theorem calculatePriceMultiplier_nonneg (b : Option String) :
    0 ≤ ProductRecommendationService.calculatePriceMultiplier b := by
  unfold ProductRecommendationService.calculatePriceMultiplier
  rcases b with _ | br
  · norm_num
  · dsimp only
    split_ifs <;> norm_num

/-- Every recommendation built by `generateRecommendations` has
`price.min ≤ price.max`. -/
theorem generateRecommendations_price_min_le_max (α : Type) (a : α)
    (ctx : AIPromptContext) (rand : ℕ → ℚ) :
    (ProductRecommendationService.generateRecommendations a ctx rand).all
      (fun r => decide (r.price.min ≤ r.price.max)) = true := by
  simp only [ProductRecommendationService.generateRecommendations]
  rw [List.all_eq_true]
  intro r hr
  obtain ⟨ip, _, rfl⟩ := List.mem_map.1 hr
  simp only [decide_eq_true_eq]
  set m := ProductRecommendationService.calculatePriceMultiplier
    (some ctx.budgetRange) with hm
  have hmn : 0 ≤ m := calculatePriceMultiplier_nonneg _
  have hadj : 0 ≤ jsRound ((ip.2.basePrice : ℚ) * m) :=
    jsRound_nonneg (mul_nonneg (by positivity) hmn)
  have hvar : 0 ≤ jsRound ((jsRound ((ip.2.basePrice : ℚ) * m) : ℚ) * (1/5)) :=
    jsRound_nonneg (mul_nonneg (by exact_mod_cast hadj) (by norm_num))
  omega

/-- C3: the first conjunct of the claim holds — every generated
recommendation satisfies `price.min ≤ price.max` — but the budget scaling
does not: the prompt-context budget descriptions for the low, mid and high
tiers ALL hit `calculatePriceMultiplier`'s first branch (the low string
contains "under", and both "$500 - $1500 - …" and "$1500+ - …" contain the
substring "500", making the later "1500" test unreachable), so all three
tiers get multiplier 0.6 and the generated recommendations — prices
included — are identical across budget tiers rather than strictly
increasing. -/
theorem generateRecommendations_price_claim :
    (∀ (α : Type) (a : α) (ctx : AIPromptContext) (rand : ℕ → ℚ),
      (ProductRecommendationService.generateRecommendations a ctx rand).all
        (fun r => decide (r.price.min ≤ r.price.max)) = true) ∧
    ProductRecommendationService.calculatePriceMultiplier
      (some (AIPromptService.createPromptContext
        [⟨"budget-range", ["budget-low"]⟩]).budgetRange) = 3/5 ∧
    ProductRecommendationService.calculatePriceMultiplier
      (some (AIPromptService.createPromptContext
        [⟨"budget-range", ["budget-mid"]⟩]).budgetRange) = 3/5 ∧
    ProductRecommendationService.calculatePriceMultiplier
      (some (AIPromptService.createPromptContext
        [⟨"budget-range", ["budget-high"]⟩]).budgetRange) = 3/5 ∧
    (∀ (α : Type) (a : α) (rand : ℕ → ℚ),
      ProductRecommendationService.generateRecommendations a
        (AIPromptService.createPromptContext
          [⟨"budget-range", ["budget-low"]⟩]) rand =
      ProductRecommendationService.generateRecommendations a
        (AIPromptService.createPromptContext
          [⟨"budget-range", ["budget-high"]⟩]) rand) := by
  refine ⟨generateRecommendations_price_min_le_max, rfl, rfl, rfl, ?_⟩
  intro α a rand
  rfl

/-- C10: for every analysis input and prompt context the happy path of
`generateRecommendations` yields between 6 and 8 recommendations (the 6
base templates plus 0-5 style templates, truncated to 8), hence always
between 3 and 8 and never empty; the internal-failure fallback list has
exactly 3 entries. -/
theorem generateRecommendations_count (α : Type) (a : α)
    (ctx : AIPromptContext) (rand : ℕ → ℚ) :
    6 ≤ (ProductRecommendationService.generateRecommendations a ctx rand).length ∧
    (ProductRecommendationService.generateRecommendations a ctx rand).length ≤ 8 ∧
    3 ≤ (ProductRecommendationService.generateRecommendations a ctx rand).length ∧
    (ProductRecommendationService.generateRecommendations a ctx rand).length ≠ 0 ∧
    ProductRecommendationService.getFallbackRecommendations.length = 3 := by
  have hlen : (ProductRecommendationService.generateRecommendations a ctx rand).length =
      min (ProductRecommendationService.getBaseProducts.length +
        (ProductRecommendationService.getStyleSpecificProducts
          (some ctx.userVibe)).length) 8 := by
    unfold ProductRecommendationService.generateRecommendations
    simp [List.length_take, Nat.min_comm]
  have hbase : ProductRecommendationService.getBaseProducts.length = 6 := rfl
  rw [hlen, hbase]
  refine ⟨?_, ?_, ?_, ?_, rfl⟩ <;> omega

end Mokospp
